import Mathlib

/-!
Verification of the HTML dashboard generator (`app/generate_html_dashboard.py`).

The Python program is shallowly embedded: JSON values become the inductive
`Json`; Python runtime errors (`AttributeError`, `TypeError`, `ValueError`)
become `PyErr`; fallible Python operations become `Except PyErr`-valued
functions; Python `float` arithmetic is modelled by exact rational arithmetic
over `ℚ` (all the quantities the program manipulates are small dyadic
rationals, for which IEEE double arithmetic is exact); the wall-clock time
read for the footer becomes an explicit `now : String` parameter.
-/

/-- The kinds of Python runtime errors the dashboard generator can raise. -/
inductive PyErr : Type where
  | attributeError : PyErr
  | typeError : PyErr
  | valueError : PyErr
deriving DecidableEq

/-- JSON values, as produced by Python's `json.load`.  Integral and
fractional JSON numbers are distinguished (Python parses them to `int`
resp. `float`); a `float` is modelled by the exact rational value of its
decimal literal. -/
inductive Json : Type where
  | null : Json
  | bool : Bool → Json
  | int : ℤ → Json
  | float : ℚ → Json
  | str : String → Json
  | arr : List Json → Json
  | obj : List (String × Json) → Json

/-- Left-pad a string with `'0'` up to length `n`. -/
def zeroPad (n : ℕ) (s : String) : String :=
  String.mk (List.replicate (n - s.length) '0') ++ s

/-- Round a rational to the nearest integer, ties to even — the rounding
Python's fixed-point `format` applies. -/
def roundHalfEven (q : ℚ) : ℤ :=
  let n : ℤ := ⌊q⌋
  let f : ℚ := q - n
  if f < 1/2 then n
  else if 1/2 < f then n + 1
  else if 2 ∣ n then n else n + 1

/-- Fixed-point decimal rendering of a nonnegative rational with `prec`
digits after the point (the behaviour of Python's `f"{x:.<prec>f}"` on
nonnegative values). -/
def fmtFixedAbs (prec : ℕ) (q : ℚ) : String :=
  let m : ℤ := roundHalfEven (q * (10 : ℚ) ^ prec)
  let ipart : ℤ := m / (10 : ℤ) ^ prec
  let fpart : ℤ := m % (10 : ℤ) ^ prec
  if prec = 0 then toString ipart
  else toString ipart ++ "." ++ zeroPad prec (toString fpart.toNat)

/-- Python's `f"{x:.<prec>f}"` on a rational of either sign. -/
def fmtFixed (prec : ℕ) (q : ℚ) : String :=
  if q < 0 then "-" ++ fmtFixedAbs prec (-q) else fmtFixedAbs prec q

/-- `format_bytes` loop body (`for unit in ['B','KB','MB','GB','TB']: ...`):
try each unit in turn, dividing by 1024, and fall through to `"PB"`. -/
def format_bytes_go : List String → ℚ → String
  | [], q => fmtFixed 2 q ++ " " ++ "PB"
  | u :: us, q =>
    if q < 1024 then fmtFixed 2 q ++ " " ++ u
    else format_bytes_go us (q / 1024)

/-- `format_bytes` from the source: `"0 B"` for zero, otherwise repeatedly
divide by 1024 through the unit list `B, KB, MB, GB, TB`, falling back to
`PB`, and render with two decimals. -/
def format_bytes (q : ℚ) : String :=
  if q = 0 then "0 B"
  else format_bytes_go ["B", "KB", "MB", "GB", "TB"] q

/-- `get_status_color` from the source: green below 50, yellow below 80,
red otherwise. -/
def get_status_color (p : ℚ) : String :=
  if p < 50 then "#28a745"
  else if p < 80 then "#ffc107"
  else "#dc3545"

/-- Python's `s.replace("Gi", " GB")` specialised to the fixed pattern:
scan left to right, replacing every (non-overlapping) occurrence of
`"Gi"` by `" GB"`. -/
def replaceGi : List Char → List Char
  | [] => []
  | [c] => [c]
  | c₁ :: c₂ :: rest =>
    if c₁ = 'G' ∧ c₂ = 'i' then ' ' :: 'G' :: 'B' :: replaceGi rest
    else c₁ :: replaceGi (c₂ :: rest)

/-- The per-field size normalisation of the disk table
(`if s.endswith('Gi'): s = s.replace('Gi', ' GB')`). -/
def normGi (s : String) : String :=
  if ['G', 'i'].isSuffixOf s.data then String.mk (replaceGi s.data) else s

/-- A scan for an occurrence of `"Gi"` anywhere in a character list. -/
def hasGi : List Char → Bool
  | c₁ :: c₂ :: rest => (c₁ = 'G' && c₂ = 'i') || hasGi (c₂ :: rest)
  | _ => false

/-- Insert thousands separators into a reversed digit list: emit a comma
before every digit whose (0-based) position from the right is a positive
multiple of three. -/
def commaRev : List Char → ℕ → List Char
  | [], _ => []
  | c :: rest, k =>
    (if k ≠ 0 ∧ k % 3 = 0 then [',', c] else [c]) ++ commaRev rest (k + 1)

/-- Python's `f"{n:,}"` on a natural number. -/
def commaNat (n : ℕ) : String :=
  String.mk ((commaRev (toString n).data.reverse 0).reverse)

/-- Python's `f"{n:,}"` on an integer. -/
def commaInt (n : ℤ) : String :=
  (if n < 0 then "-" else "") ++ commaNat n.natAbs

/-- Decimal digits of a nonnegative rational with a power-of-ten
denominator: the pair (integer-part string, fraction-part string) using the
least number of fractional digits.  Every `float` in a JSON snapshot is such
a rational.  Returns `none` for rationals with no finite decimal expansion
(unreachable from JSON input). -/
def decParts (q : ℚ) : Option (String × String) :=
  ((List.range 61).find? fun k => (q * (10 : ℚ) ^ k).den = 1).map fun k =>
    let m : ℤ := (q * (10 : ℚ) ^ k).num
    (toString (m / (10 : ℤ) ^ k), zeroPad k (toString (m % (10 : ℤ) ^ k).toNat))

/-- Python's `str()` of a nonnegative float (shortest decimal form;
integral floats render with a trailing `".0"`). -/
def floatStrAbs (q : ℚ) : String :=
  if q.den = 1 then toString q.num ++ ".0"
  else
    match decParts q with
    | some (ip, fp) => ip ++ "." ++ fp
    | none => toString q.num ++ "/" ++ toString q.den

/-- Python's `str()` of a float of either sign. -/
def floatStr (q : ℚ) : String :=
  if q < 0 then "-" ++ floatStrAbs (-q) else floatStrAbs q

/-- Python's `f"{x:,}"` on a float: grouped integer part, then the
fractional digits. -/
def commaFloat (q : ℚ) : String :=
  if q < 0 then "-" ++ commaFloatAbs (-q) else commaFloatAbs q
where
  commaFloatAbs (q : ℚ) : String :=
    if q.den = 1 then commaNat q.num.toNat ++ ".0"
    else
      match decParts q with
      | some (ip, fp) => commaNat ip.toNat! ++ "." ++ fp
      | none => toString q.num ++ "/" ++ toString q.den

mutual

/-- Python's `repr()` of a JSON-derived value (used by `str()` on
containers; string escaping subtleties inside `repr` of nested strings are
not modelled). -/
def pyRepr : Json → String
  | .null => "None"
  | .bool b => if b then "True" else "False"
  | .int n => toString n
  | .float q => floatStr q
  | .str s => "'" ++ s ++ "'"
  | .arr xs => "[" ++ pyReprList xs ++ "]"
  | .obj kvs => "\x7b" ++ pyReprObj kvs ++ "\x7d"

/-- `repr` of a list's elements, comma separated. -/
def pyReprList : List Json → String
  | [] => ""
  | [x] => pyRepr x
  | x :: xs => pyRepr x ++ ", " ++ pyReprList xs

/-- `repr` of a dict's entries, comma separated. -/
def pyReprObj : List (String × Json) → String
  | [] => ""
  | [(k, v)] => "'" ++ k ++ "': " ++ pyRepr v
  | (k, v) :: kvs => "'" ++ k ++ "': " ++ pyRepr v ++ ", " ++ pyReprObj kvs

end

/-- Python's `str()` (the conversion an `f"{x}"` interpolation performs). -/
def pyStr : Json → String
  | .str s => s
  | v => pyRepr v

/-- The numeric value of a JSON leaf, if Python treats it as a number
(`bool` is an `int` subclass in Python). -/
def pyNumQ : Json → Option ℚ
  | .int n => some (n : ℚ)
  | .float q => some q
  | .bool b => some (if b then 1 else 0)
  | _ => none

/-- Python's `d.get(key, default)`: a lookup on a dict, an
`AttributeError` on anything else. -/
def pyGetD (v : Json) (key : String) (dflt : Json) : Except PyErr Json :=
  match v with
  | .obj kvs => .ok ((kvs.lookup key).getD dflt)
  | _ => .error .attributeError

/-- Python's `for x in v`: lists iterate their elements, strings their
characters, dicts their keys; numbers and `None` raise `TypeError`. -/
def pyIter (v : Json) : Except PyErr (List Json) :=
  match v with
  | .arr xs => .ok xs
  | .str s => .ok (s.data.map fun c => .str (String.mk [c]))
  | .obj kvs => .ok (kvs.map fun kv => .str kv.1)
  | _ => .error .typeError

/-- Python's `v > 0` on a JSON leaf: numeric values compare, anything else
raises `TypeError`. -/
def pyGtZero (v : Json) : Except PyErr Bool :=
  match pyNumQ v with
  | some q => .ok (0 < q)
  | none => .error .typeError

/-- Python's `s.startswith(p)`: a prefix test on the character
sequence. -/
def strStartsWith (s p : String) : Bool :=
  p.data.isPrefixOf s.data

/-- Python's `v.startswith(p)`: defined on strings only. -/
def pyStartsWith (v : Json) (p : String) : Except PyErr Bool :=
  match v with
  | .str s => .ok (strStartsWith s p)
  | _ => .error .attributeError

/-- The disk-table size normalisation applied to a raw field value:
`v.endswith('Gi')` raises `AttributeError` unless `v` is a string. -/
def pyNormGi (v : Json) : Except PyErr String :=
  match v with
  | .str s => .ok (normGi s)
  | _ => .error .attributeError

/-- Python's `f"{v:.<prec>f}"` on a raw value: numbers format, strings
raise `ValueError` (unknown format code), everything else `TypeError`. -/
def pyFixed (prec : ℕ) (v : Json) : Except PyErr String :=
  match v with
  | .str _ => .error .valueError
  | v =>
    match pyNumQ v with
    | some q => .ok (fmtFixed prec q)
    | none => .error .typeError

/-- Python's `f"{v / 1024:.2f}"` on a raw value: the division raises
`TypeError` on non-numbers. -/
def pyDivFixed2 (v : Json) : Except PyErr String :=
  match pyNumQ v with
  | some q => .ok (fmtFixed 2 (q / 1024))
  | none => .error .typeError

/-- `get_status_color(v)` on a raw value: the `<` comparisons raise
`TypeError` on non-numbers. -/
def pyStatusColor (v : Json) : Except PyErr String :=
  match pyNumQ v with
  | some q => .ok (get_status_color q)
  | none => .error .typeError

/-- `format_bytes(v)` on a raw value: `v == 0` is `False` for non-numbers,
after which `v < 1024` raises `TypeError`. -/
def pyFormatBytes (v : Json) : Except PyErr String :=
  match pyNumQ v with
  | some q => .ok (format_bytes q)
  | none => .error .typeError

/-- Python's `f"{v:,}"` on a raw value: ints and floats group, `bool`
formats through `int`, strings raise `ValueError`, the rest `TypeError`. -/
def pyComma (v : Json) : Except PyErr String :=
  match v with
  | .int n => .ok (commaInt n)
  | .float q => .ok (commaFloat q)
  | .bool b => .ok (if b then "1" else "0")
  | .str _ => .error .valueError
  | _ => .error .typeError
def hd0 : String := "<!DOCTYPE html>\n<html>\n<head>\n    <meta charset=\"UTF-8\">\n    <meta name=\"viewport\" content=\"width=device-width, initial-scale=1.0\">\n    <title>System Monitor Dashboard</title>\n    <style>\n        * \x7b\n            margin: 0;\n            padding: 0;\n            box-sizing: border-box;\n        \x7d\n        \n        body \x7b\n            font-family: 'Segoe UI', Tahoma, Geneva, Verdana, sans-serif;\n            background: linear-gradient(135deg, #667eea 0%, #764ba2 100%);\n            padding: 20px;\n            min-height: 100vh;\n        \x7d\n        \n        .container \x7b\n            max-width: 1200px;\n            margin: 0 auto;\n            background: white;\n            border-radius: 10px;\n            box-shadow: 0 10px 40px rgba(0,0,0,0.2);\n            overflow: hidden;\n        \x7d\n        \n        .header \x7b\n            background: linear-gradient(135deg, #667eea 0%, #764ba2 100%);\n            color: white;\n            padding: 30px;\n            text-align: center;\n        \x7d\n        \n        .header h1 \x7b\n            font-size: 2.5em;\n            margin-bottom: 10px;\n        \x7d\n        \n        .info-bar \x7b\n            display: flex;\n            justify-content: space-around;\n            padding: 20px;\n            background: #f8f9fa;\n            border-bottom: 2px solid #e9ecef;\n        \x7d\n        \n        .info-item \x7b\n            text-align: center;\n        \x7d\n        \n        .info-item label \x7b\n            display: block;\n            color: #6c757d;\n            font-size: 0.9em;\n            margin-bottom: 5px;\n        \x7d\n        \n        .info-item value \x7b\n            display: block;\n            font-size: 1.2em;\n            font-weight: bold;\n            color: #333;\n        \x7d\n        \n        .section \x7b\n            padding: 30px;\n            border-bottom: 1px solid #e9ecef;\n        \x7d\n        \n        .section:last-child \x7b\n            border-bottom: none;\n        \x7d\n        \n        .section-title \x7b\n            font-size: 1.8em;\n            margin-bottom: 20px;\n            color: #667eea;\n        \x7d\n        \n        .metrics-row \x7b\n            display: flex;\n            flex-wrap: wrap;\n            gap: 20px;\n            margin-bottom: 20px;\n        \x7d\n        \n        .metric-card \x7b\n            flex: 1;\n            min-width: 200px;\n            background: #f8f9fa;\n            padding: 20px;\n            border-radius: 8px;\n            border-left: 4px solid #667eea;\n        \x7d\n        \n        .metric-card h3 \x7b\n            color: #6c757d;\n            font-size: 0.9em;\n            margin-bottom: 10px;\n        \x7d\n        \n        .metric-card .value \x7b\n            font-size: 2em;\n            font-weight: bold;\n            color: #333;\n        \x7d\n        \n        .progress-bar \x7b\n            width: 100%;\n            height: 25px;\n            background: #e9ecef;\n            border-radius: 12px;\n            overflow: hidden;\n            margin-top: 10px;\n        \x7d\n        \n        .progress-fill \x7b\n            height: 100%;\n            border-radius: 12px;\n            display: flex;\n            align-items: center;\n            justify-content: center;\n            color: white;\n            font-weight: bold;\n            font-size: 0.85em;\n        \x7d\n        \n        table \x7b\n            width: 100%;\n            border-collapse: collapse;\n            margin-top: 20px;\n        \x7d\n        \n        table th \x7b\n            background: #667eea;\n            color: white;\n            padding: 12px;\n            text-align: left;\n        \x7d\n        \n        table td \x7b\n            padding: 12px;\n            border-bottom: 1px solid #e9ecef;\n        \x7d\n        \n        table tr:hover \x7b\n            background: #f8f9fa;\n        \x7d\n        \n        .badge \x7b\n            display: inline-block;\n            padding: 4px 10px;\n            border-radius: 4px;\n            color: white;\n            font-size: 0.85em;\n            font-weight: bold;\n        \x7d\n        \n        .footer \x7b\n            text-align: center;\n            padding: 20px;\n            background: #f8f9fa;\n            color: #6c757d;\n        \x7d\n    </style>\n</head>\n<body>\n    <div class=\"container\">\n        <div class=\"header\">\n            <h1>\uf8ff\u00fc\u00ec\u00e4 System Monitor Dashboard</h1>\n            <p>System Metrics Overview</p>\n        </div>\n        \n        <div class=\"info-bar\">\n            <div class=\"info-item\">\n                <label>Hostname</label>\n                <value>"

def hd1 : String := "</value>\n            </div>\n            <div class=\"info-item\">\n                <label>Last Update</label>\n                <value>"

def hd2 : String := "</value>\n            </div>\n            <div class=\"info-item\">\n                <label>Uptime</label>\n                <value>"

def hd3 : String := "</value>\n            </div>\n        </div>\n        \n        <!-- CPU Section -->\n        <div class=\"section\">\n            <div class=\"section-title\">\uf8ff\u00fc\u00f1\u2022\u00d4\u220f\u00e8 CPU Metrics</div>\n            <div class=\"metrics-row\">\n                <div class=\"metric-card\">\n                    <h3>CPU Usage</h3>\n                    <div class=\"value\">"

def hd4 : String := "%</div>\n                    <div class=\"progress-bar\">\n                        <div class=\"progress-fill\" style=\"width: "

def hd5 : String := "%; background: "

def hd6 : String := ";\">\n                            "

def hd7 : String := "%\n                        </div>\n                    </div>\n                </div>\n                <div class=\"metric-card\">\n                    <h3>CPU Cores</h3>\n                    <div class=\"value\">"

def hd8 : String := "</div>\n                </div>\n                <div class=\"metric-card\">\n                    <h3>Temperature</h3>\n                    <div class=\"value\">"

def hd9 : String := "</div>\n                </div>\n                <div class=\"metric-card\">\n                    <h3>Load Average</h3>\n                    <div class=\"value\">"

def hd10 : String := "</div>\n                </div>\n            </div>\n            <p style=\"margin-top: 15px; color: #6c757d;\"><strong>Model:</strong> "

def hd11 : String := "</p>\n        </div>\n        \n        <!-- Memory Section -->\n        <div class=\"section\">\n            <div class=\"section-title\">\uf8ff\u00fc\u00ed\u00e6 Memory Metrics</div>\n            <div class=\"metrics-row\">\n                <div class=\"metric-card\">\n                    <h3>Total Memory</h3>\n                    <div class=\"value\">"

def hd12 : String := " GB</div>\n                </div>\n                <div class=\"metric-card\">\n                    <h3>Used Memory</h3>\n                    <div class=\"value\">"

def hd13 : String := " GB</div>\n                </div>\n                <div class=\"metric-card\">\n                    <h3>Available Memory</h3>\n                    <div class=\"value\">"

def hd14 : String := " GB</div>\n                </div>\n                <div class=\"metric-card\">\n                    <h3>Memory Usage</h3>\n                    <div class=\"value\">\n                        <span class=\"badge\" style=\"background: "

def hd15 : String := ";\">"

def hd16 : String := "%</span>\n                    </div>\n                    <div class=\"progress-bar\">\n                        <div class=\"progress-fill\" style=\"width: "

def hd17 : String := "%; background: "

def hd18 : String := ";\">\n                            "

def hd19 : String := "%\n                        </div>\n                    </div>\n                </div>\n            </div>\n"

def sw0 : String := "\n            <div class=\"metrics-row\" style=\"margin-top: 20px;\">\n                <div class=\"metric-card\">\n                    <h3>Swap Total</h3>\n                    <div class=\"value\">"

def sw1 : String := " GB</div>\n                </div>\n                <div class=\"metric-card\">\n                    <h3>Swap Used</h3>\n                    <div class=\"value\">"

def sw2 : String := " GB</div>\n                </div>\n                <div class=\"metric-card\">\n                    <h3>Swap Usage</h3>\n                    <div class=\"value\">\n                        <span class=\"badge\" style=\"background: "

def sw3 : String := ";\">"

def sw4 : String := "%</span>\n                    </div>\n                    <div class=\"progress-bar\">\n                        <div class=\"progress-fill\" style=\"width: "

def sw5 : String := "%; background: "

def sw6 : String := ";\">\n                            "

def sw7 : String := "%\n                        </div>\n                    </div>\n                </div>\n            </div>\n"

def dOpen : String := "\n        </div>\n        \n        <div class=\"section\">\n            <div class=\"section-title\">\uf8ff\u00fc\u00ed\u00f8 Disk Metrics</div>\n"

def dHead : String := "\n            <table>\n                <thead>\n                    <tr>\n                        <th>Filesystem</th>\n                        <th>Size</th>\n                        <th>Used</th>\n                        <th>Available</th>\n                        <th>Usage %</th>\n                    </tr>\n                </thead>\n                <tbody>\n"

def dr0 : String := "\n                    <tr>\n                        <td>"

def dr1 : String := "</td>\n                        <td>"

def dr2 : String := "</td>\n                        <td>"

def dr3 : String := "</td>\n                        <td>"

def dr4 : String := "</td>\n                        <td>\n                            <span class=\"badge\" style=\"background: "

def dr5 : String := ";\">"

def dr6 : String := "%</span>\n                        </td>\n                    </tr>\n"

def dFoot : String := "\n                </tbody>\n            </table>\n"

def noDisk : String := "<p style=\"color: #6c757d;\">No disk information available</p>"

def gOpen : String := "\n        </div>\n        \n        <div class=\"section\">\n            <div class=\"section-title\">\uf8ff\u00fc\u00e9\u00c6 GPU Metrics</div>\n            <div class=\"metrics-row\">\n"

def gp0 : String := "\n                <div class=\"metric-card\">\n                    <h3>GPU Usage</h3>\n                    <div class=\"value\">"

def gp1 : String := "</div>\n                </div>\n                <div class=\"metric-card\">\n                    <h3>GPU Temperature</h3>\n                    <div class=\"value\">"

def gp2 : String := "</div>\n                </div>\n                <div class=\"metric-card\">\n                    <h3>GPU Memory</h3>\n                    <div class=\"value\">"

def gp3 : String := "</div>\n                </div>\n"

def nOpen : String := "\n            </div>\n        </div>\n        \n        <div class=\"section\">\n            <div class=\"section-title\">\uf8ff\u00fc\u00e5\u00ea Network Metrics</div>\n"

def nHead : String := "\n            <table>\n                <thead>\n                    <tr>\n                        <th>Interface</th>\n                        <th>IP Address</th>\n                        <th>RX Bytes</th>\n                        <th>TX Bytes</th>\n                        <th>RX Packets</th>\n                        <th>TX Packets</th>\n                    </tr>\n                </thead>\n                <tbody>\n"

def nr0 : String := "\n                    <tr>\n                        <td>"

def nr1 : String := "</td>\n                        <td>"

def nr2 : String := "</td>\n                        <td>"

def nr3 : String := "</td>\n                        <td>"

def nr4 : String := "</td>\n                        <td>"

def nr5 : String := "</td>\n                        <td>"

def nr6 : String := "</td>\n                    </tr>\n"

def nFoot : String := "\n                </tbody>\n            </table>\n"

def noNet : String := "<p style=\"color: #6c757d;\">No active network interfaces</p>"

def lOpen : String := "\n        </div>\n        \n        <div class=\"section\">\n            <div class=\"section-title\">\u201a\u00f6\u00f4\u00d4\u220f\u00e8 System Load</div>\n            <div class=\"metrics-row\">\n"

def lo0 : String := "\n                <div class=\"metric-card\">\n                    <h3>Load (1 min)</h3>\n                    <div class=\"value\">"

def lo1 : String := "</div>\n                </div>\n                <div class=\"metric-card\">\n                    <h3>Load (5 min)</h3>\n                    <div class=\"value\">"

def lo2 : String := "</div>\n                </div>\n                <div class=\"metric-card\">\n                    <h3>Load (15 min)</h3>\n                    <div class=\"value\">"

def lo3 : String := "</div>\n                </div>\n                <div class=\"metric-card\">\n                    <h3>Uptime</h3>\n                    <div class=\"value\">"

def lo4 : String := "</div>\n                </div>\n            </div>\n        </div>\n"

def ft0 : String := "\n        <div class=\"footer\">\n            Generated on "

def ft1 : String := "\n        </div>\n    </div>\n</body>\n</html>\n"

/-- The disk filter loop (`for disk in disks: ...`): keep the entries whose
`filesystem` value (default `""`) starts with neither `"devfs"` nor
`"map"`; `not a and not b` short-circuits after a `devfs` match. -/
def filterDisks : List Json → Except PyErr (List Json)
  | [] => .ok []
  | d :: rest => do
    let fs ← pyGetD d "filesystem" (.str "")
    let b₁ ← pyStartsWith fs "devfs"
    if b₁ then filterDisks rest
    else do
      let b₂ ← pyStartsWith fs "map"
      let tail ← filterDisks rest
      if b₂ then pure tail else pure (d :: tail)

/-- The network filter loop: keep the interfaces with
`rx_bytes > 0 or tx_bytes > 0`; `or` short-circuits after a truthy left
operand. -/
def filterNets : List Json → Except PyErr (List Json)
  | [] => .ok []
  | n :: rest => do
    let rx ← pyGetD n "rx_bytes" (.int 0)
    let brx ← pyGtZero rx
    if brx then do
      let tail ← filterNets rest
      pure (n :: tail)
    else do
      let tx ← pyGetD n "tx_bytes" (.int 0)
      let btx ← pyGtZero tx
      let tail ← filterNets rest
      if btx then pure (n :: tail) else pure tail

/-- The opening f-string of `generate_html` (document head, CSS, info bar,
CPU section, memory section), with its nineteen interpolations evaluated in
source order. -/
def mkHeaderChunk (metrics system_load cpu_usage cpu_cores cpu_temp cpu_model
    load_avg mem_total mem_used mem_available mem_percent : Json) :
    Except PyErr String := do
  let hostname ← pyGetD metrics "hostname" (.str "Unknown")
  let timestamp ← pyGetD metrics "timestamp" (.str "N/A")
  let uptime ← pyGetD system_load "uptime" (.str "N/A")
  let cu₁ ← pyFixed 1 cpu_usage
  let cuColor ← pyStatusColor cpu_usage
  let cu₂ ← pyFixed 1 cpu_usage
  let mt ← pyDivFixed2 mem_total
  let mu ← pyDivFixed2 mem_used
  let ma ← pyDivFixed2 mem_available
  let mpColor₁ ← pyStatusColor mem_percent
  let mp₁ ← pyFixed 1 mem_percent
  let mpColor₂ ← pyStatusColor mem_percent
  let mp₂ ← pyFixed 1 mem_percent
  pure (hd0 ++ pyStr hostname ++ hd1 ++ pyStr timestamp ++ hd2 ++
    pyStr uptime ++ hd3 ++ cu₁ ++ hd4 ++ pyStr cpu_usage ++ hd5 ++
    cuColor ++ hd6 ++ cu₂ ++ hd7 ++ pyStr cpu_cores ++ hd8 ++
    pyStr cpu_temp ++ hd9 ++ pyStr load_avg ++ hd10 ++ pyStr cpu_model ++
    hd11 ++ mt ++ hd12 ++ mu ++ hd13 ++ ma ++ hd14 ++ mpColor₁ ++ hd15 ++
    mp₁ ++ hd16 ++ pyStr mem_percent ++ hd17 ++ mpColor₂ ++ hd18 ++ mp₂ ++
    hd19)

/-- The conditional swap block (`if swap_total > 0: html += f"""..."""`):
the empty string when the guard is false, the swap f-string otherwise. -/
def mkSwapPart (swap_total swap_used swap_percent : Json) :
    Except PyErr String := do
  let b ← pyGtZero swap_total
  if b then do
    let st ← pyDivFixed2 swap_total
    let su ← pyDivFixed2 swap_used
    let spColor₁ ← pyStatusColor swap_percent
    let sp₁ ← pyFixed 1 swap_percent
    let spColor₂ ← pyStatusColor swap_percent
    let sp₂ ← pyFixed 1 swap_percent
    pure (sw0 ++ st ++ sw1 ++ su ++ sw2 ++ spColor₁ ++ sw3 ++ sp₁ ++ sw4 ++
      pyStr swap_percent ++ sw5 ++ spColor₂ ++ sw6 ++ sp₂ ++ sw7)
  else pure ""

/-- One row of the disk table, with its field extraction, size
normalisation and interpolations in source order. -/
def mkDiskRow (disk : Json) : Except PyErr String := do
  let usage ← pyGetD disk "use_percent" (.int 0)
  let size ← pyGetD disk "size" (.str "N/A")
  let used ← pyGetD disk "used" (.str "N/A")
  let available ← pyGetD disk "available" (.str "N/A")
  let sizeS ← pyNormGi size
  let usedS ← pyNormGi used
  let availS ← pyNormGi available
  let fs ← pyGetD disk "filesystem" (.str "N/A")
  let color ← pyStatusColor usage
  pure (dr0 ++ pyStr fs ++ dr1 ++ sizeS ++ dr2 ++ usedS ++ dr3 ++ availS ++
    dr4 ++ color ++ dr5 ++ pyStr usage ++ dr6)

/-- The disk table rows, concatenated in order. -/
def diskRows : List Json → Except PyErr String
  | [] => pure ""
  | d :: ds => do
    let r ← mkDiskRow d
    let rest ← diskRows ds
    pure (r ++ rest)

/-- The disk section body: the placeholder paragraph when the filtered list
is empty, the table otherwise. -/
def mkDiskChunk (main_disks : List Json) : Except PyErr String :=
  if main_disks.isEmpty then pure noDisk
  else do
    let rows ← diskRows main_disks
    pure (dHead ++ rows ++ dFoot)

/-- The GPU cards f-string with its three `gpu.get` interpolations. -/
def mkGpuChunk (gpu : Json) : Except PyErr String := do
  let u ← pyGetD gpu "gpu_usage_percent" (.str "N/A")
  let t ← pyGetD gpu "gpu_temperature" (.str "N/A")
  let m ← pyGetD gpu "gpu_memory" (.str "N/A")
  pure (gp0 ++ pyStr u ++ gp1 ++ pyStr t ++ gp2 ++ pyStr m ++ gp3)

/-- One row of the network table, with its interpolations in source
order. -/
def mkNetRow (net : Json) : Except PyErr String := do
  let iface ← pyGetD net "interface" (.str "N/A")
  let ip ← pyGetD net "ip_address" (.str "N/A")
  let rxv ← pyGetD net "rx_bytes" (.int 0)
  let rxs ← pyFormatBytes rxv
  let txv ← pyGetD net "tx_bytes" (.int 0)
  let txs ← pyFormatBytes txv
  let rpv ← pyGetD net "rx_packets" (.int 0)
  let rps ← pyComma rpv
  let tpv ← pyGetD net "tx_packets" (.int 0)
  let tps ← pyComma tpv
  pure (nr0 ++ pyStr iface ++ nr1 ++ pyStr ip ++ nr2 ++ rxs ++ nr3 ++ txs ++
    nr4 ++ rps ++ nr5 ++ tps ++ nr6)

/-- The network table rows, concatenated in order. -/
def netRows : List Json → Except PyErr String
  | [] => pure ""
  | n :: ns => do
    let r ← mkNetRow n
    let rest ← netRows ns
    pure (r ++ rest)

/-- The network section body: the placeholder paragraph when the filtered
list is empty, the table otherwise. -/
def mkNetChunk (active_networks : List Json) : Except PyErr String :=
  if active_networks.isEmpty then pure noNet
  else do
    let rows ← netRows active_networks
    pure (nHead ++ rows ++ nFoot)

/-- The system-load cards f-string with its four interpolations. -/
def mkLoadChunk (system_load : Json) : Except PyErr String := do
  let l1v ← pyGetD system_load "load_1min" (.int 0)
  let l1 ← pyFixed 2 l1v
  let l5v ← pyGetD system_load "load_5min" (.int 0)
  let l5 ← pyFixed 2 l5v
  let l15v ← pyGetD system_load "load_15min" (.int 0)
  let l15 ← pyFixed 2 l15v
  let up ← pyGetD system_load "uptime" (.str "N/A")
  pure (lo0 ++ l1 ++ lo1 ++ l5 ++ lo2 ++ l15 ++ lo3 ++ pyStr up ++ lo4)

/-- Everything `generate_html` assembles before the footer: the field
extraction of lines 58–79, the two filters of lines 81–92, and the section
chunks, in source order. -/
def genBody (metrics : Json) : Except PyErr String := do
  let cpu ← pyGetD metrics "cpu" (.obj [])
  let memory ← pyGetD metrics "memory" (.obj [])
  let disks ← pyGetD metrics "disk" (.arr [])
  let gpu ← pyGetD metrics "gpu" (.obj [])
  let networks ← pyGetD metrics "network" (.arr [])
  let system_load ← pyGetD metrics "system_load" (.obj [])
  let cpu_usage ← pyGetD cpu "cpu_usage_percent" (.int 0)
  let cpu_cores ← pyGetD cpu "cpu_cores" (.int 0)
  let cpu_temp ← pyGetD cpu "cpu_temperature" (.str "N/A")
  let cpu_model ← pyGetD cpu "cpu_model" (.str "Unknown")
  let load_avg ← pyGetD cpu "load_average" (.str "N/A")
  let mem_total ← pyGetD memory "memory_total_mb" (.int 0)
  let mem_used ← pyGetD memory "memory_used_mb" (.int 0)
  let mem_available ← pyGetD memory "memory_available_mb" (.int 0)
  let mem_percent ← pyGetD memory "memory_usage_percent" (.int 0)
  let swap_total ← pyGetD memory "swap_total_mb" (.int 0)
  let swap_used ← pyGetD memory "swap_used_mb" (.int 0)
  let swap_percent ← pyGetD memory "swap_usage_percent" (.int 0)
  let diskItems ← pyIter disks
  let main_disks ← filterDisks diskItems
  let netItems ← pyIter networks
  let active_networks ← filterNets netItems
  let header ← mkHeaderChunk metrics system_load cpu_usage cpu_cores cpu_temp
    cpu_model load_avg mem_total mem_used mem_available mem_percent
  let swapC ← mkSwapPart swap_total swap_used swap_percent
  let diskC ← mkDiskChunk main_disks
  let gpuC ← mkGpuChunk gpu
  let netC ← mkNetChunk active_networks
  let loadC ← mkLoadChunk system_load
  pure (header ++ swapC ++ dOpen ++ diskC ++ gOpen ++ gpuC ++ nOpen ++
    netC ++ lOpen ++ loadC)

/-- `generate_html(metrics)` with the wall-clock reading
`datetime.now().strftime('%Y-%m-%d %H:%M:%S')` abstracted as `now`: the
body followed by the footer f-string. -/
def generate_html (metrics : Json) (now : String) : Except PyErr String :=
  (genBody metrics).map fun b => b ++ ft0 ++ now ++ ft1

/-- Replay of the steps of `generate_html` that produce the swap block:
the `memory` section, the three swap fields, then the conditional swap
f-string. -/
def swapChunkOf (metrics : Json) : Except PyErr String := do
  let memory ← pyGetD metrics "memory" (.obj [])
  let swap_total ← pyGetD memory "swap_total_mb" (.int 0)
  let swap_used ← pyGetD memory "swap_used_mb" (.int 0)
  let swap_percent ← pyGetD memory "swap_usage_percent" (.int 0)
  mkSwapPart swap_total swap_used swap_percent

/-- Replay of the steps of `generate_html` that produce the filtered disk
list. -/
def mainDisksOf (metrics : Json) : Except PyErr (List Json) := do
  let disks ← pyGetD metrics "disk" (.arr [])
  let diskItems ← pyIter disks
  filterDisks diskItems

/-- Replay of the steps of `generate_html` that produce the filtered
network list. -/
def activeNetsOf (metrics : Json) : Except PyErr (List Json) := do
  let networks ← pyGetD metrics "network" (.arr [])
  let netItems ← pyIter networks
  filterNets netItems

/-- The possible outcomes of opening and parsing the metrics file in
`load_metrics`: the file is missing, reading or parsing fails with a
message, or a document is obtained. -/
inductive LoadOutcome : Type where
  | missing : LoadOutcome
  | readFail : String → LoadOutcome
  | good : Json → LoadOutcome

/-- `load_metrics` from the source, over an abstract file-system outcome:
the pair of the printed lines and the returned document (`none` models
Python's `None`). -/
def load_metrics : LoadOutcome → List String × Option Json
  | .missing =>
    (["Error: Could not find reports/metrics.json",
      "Run './scripts/monitor.sh -o' first to collect metrics"], none)
  | .readFail e => (["Error loading metrics: " ++ e], none)
  | .good j => ([], some j)

/-- `main` from the source (named `mainRun` because Lean reserves `main`
for entry points): print the loading banner, load; on `None` return without
writing; otherwise generate (an uncaught exception also leaves the output
unwritten) and on success write the document.  The second component is the
content written to `reports/dashboard.html`, `none` when no write happens;
the final browse line embeds an environment-dependent absolute path and is
not modelled. -/
def mainRun (o : LoadOutcome) (now : String) : List String × Option String :=
  let pre := ["Loading metrics from reports/metrics.json..."]
  let lm := load_metrics o
  match lm.2 with
  | none => (pre ++ lm.1, none)
  | some m =>
    match generate_html m now with
    | .error _ => (pre ++ lm.1 ++ ["Generating HTML dashboard..."], none)
    | .ok h =>
      (pre ++ lm.1 ++ ["Generating HTML dashboard...",
        "\u201a\u00fa\u00d6 Dashboard generated successfully!",
        "\uf8ff\u00fc\u00ec\u00d1 File: reports/dashboard.html"], some h)

/-- Spec-side byte formatter, transcribed from the specification's words:
`"0 B"` for zero, otherwise the value scaled by the power of 1024 of the
smallest unit among B, KB, MB, GB, TB, PB for which the scaled value is
below 1024 (PB as the ceiling), rendered with exactly two decimals. -/
def format_bytes_spec (n : ℕ) : String :=
  if n = 0 then "0 B"
  else if n < 1024 then fmtFixed 2 (n : ℚ) ++ " " ++ "B"
  else if n < 1024 ^ 2 then fmtFixed 2 ((n : ℚ) / 1024) ++ " " ++ "KB"
  else if n < 1024 ^ 3 then fmtFixed 2 ((n : ℚ) / 1024 ^ 2) ++ " " ++ "MB"
  else if n < 1024 ^ 4 then fmtFixed 2 ((n : ℚ) / 1024 ^ 3) ++ " " ++ "GB"
  else if n < 1024 ^ 5 then fmtFixed 2 ((n : ℚ) / 1024 ^ 4) ++ " " ++ "TB"
  else fmtFixed 2 ((n : ℚ) / 1024 ^ 5) ++ " " ++ "PB"

/-- The filesystem name of a disk entry as the filter reads it: the
`filesystem` value with default `""`. -/
def fsNameOf (d : Json) : String :=
  match d with
  | .obj kvs =>
    match kvs.lookup "filesystem" with
    | some (.str s) => s
    | some _ => ""
    | none => ""
  | _ => ""

/-- Spec-side disk predicate: keep an entry whose filesystem name starts
with neither `"devfs"` nor `"map"`. -/
def diskKeep (d : Json) : Bool :=
  !strStartsWith (fsNameOf d) "devfs" && !strStartsWith (fsNameOf d) "map"

/-- The numeric value of a field of an entry, with default 0 (as the
network filter reads `rx_bytes` and `tx_bytes`). -/
def numFieldOf (d : Json) (key : String) : ℚ :=
  match d with
  | .obj kvs =>
    match kvs.lookup key with
    | some v => (pyNumQ v).getD 0
    | none => 0
  | _ => 0

/-- Spec-side network predicate: keep an interface with positive received
or transmitted bytes. -/
def netKeep (d : Json) : Bool :=
  decide (0 < numFieldOf d "rx_bytes") || decide (0 < numFieldOf d "tx_bytes")

/-- A JSON leaf Python's numeric operations accept. -/
def okNum (v : Json) : Bool :=
  match v with
  | .int _ => true
  | .float _ => true
  | .bool _ => true
  | _ => false

/-- A field that is absent or numeric. -/
def fieldNum (kvs : List (String × Json)) (key : String) : Bool :=
  match kvs.lookup key with
  | none => true
  | some v => okNum v

/-- A field that is absent or a string. -/
def fieldStr (kvs : List (String × Json)) (key : String) : Bool :=
  match kvs.lookup key with
  | none => true
  | some (.str _) => true
  | some _ => false

/-- A disk entry every step of the disk table accepts: a dict whose
`filesystem`, `size`, `used`, `available` are absent or strings and whose
`use_percent` is absent or numeric. -/
def diskShaped (d : Json) : Bool :=
  match d with
  | .obj kvs =>
    fieldStr kvs "filesystem" && fieldStr kvs "size" && fieldStr kvs "used" &&
      fieldStr kvs "available" && fieldNum kvs "use_percent"
  | _ => false

/-- A disk entry the filter alone accepts: a dict whose `filesystem` is
absent or a string. -/
def diskFilterShaped (d : Json) : Bool :=
  match d with
  | .obj kvs => fieldStr kvs "filesystem"
  | _ => false

/-- A network entry every step of the network table accepts: a dict whose
byte and packet counters are absent or numeric. -/
def netShaped (d : Json) : Bool :=
  match d with
  | .obj kvs =>
    fieldNum kvs "rx_bytes" && fieldNum kvs "tx_bytes" &&
      fieldNum kvs "rx_packets" && fieldNum kvs "tx_packets"
  | _ => false

/-- A network entry the filter alone accepts: a dict whose `rx_bytes` and
`tx_bytes` are absent or numeric. -/
def netFilterShaped (d : Json) : Bool :=
  match d with
  | .obj kvs => fieldNum kvs "rx_bytes" && fieldNum kvs "tx_bytes"
  | _ => false

/-- The `cpu` section shape the renderer accepts: a dict whose
`cpu_usage_percent` is absent or numeric (the other cpu fields are
rendered with `str()` and may have any shape). -/
def cpuShaped (v : Json) : Bool :=
  match v with
  | .obj kvs => fieldNum kvs "cpu_usage_percent"
  | _ => false

/-- The `memory` section shape the renderer accepts: every consumed field
absent or numeric. -/
def memShaped (v : Json) : Bool :=
  match v with
  | .obj kvs =>
    fieldNum kvs "memory_total_mb" && fieldNum kvs "memory_used_mb" &&
      fieldNum kvs "memory_available_mb" && fieldNum kvs "memory_usage_percent" &&
      fieldNum kvs "swap_total_mb" && fieldNum kvs "swap_used_mb" &&
      fieldNum kvs "swap_usage_percent"
  | _ => false

/-- The `system_load` section shape the renderer accepts: the three load
figures absent or numeric (`uptime` is rendered with `str()`). -/
def loadShaped (v : Json) : Bool :=
  match v with
  | .obj kvs =>
    fieldNum kvs "load_1min" && fieldNum kvs "load_5min" &&
      fieldNum kvs "load_15min"
  | _ => false

/-- The `gpu` section shape the renderer accepts: any dict (all three gpu
fields are rendered verbatim with `str()`). -/
def gpuShaped (v : Json) : Bool :=
  match v with
  | .obj _ => true
  | _ => false

/-- A section that is absent or satisfies `p`. -/
def sectionShaped (kvs : List (String × Json)) (key : String)
    (p : Json → Bool) : Bool :=
  match kvs.lookup key with
  | none => true
  | some v => p v

/-- A sequence section that is absent or a list of entries satisfying
`p`. -/
def listShaped (kvs : List (String × Json)) (key : String)
    (p : Json → Bool) : Bool :=
  match kvs.lookup key with
  | none => true
  | some (.arr xs) => xs.all p
  | some _ => false

/-- A snapshot document that is well-shaped per §3 of the specification:
a dict, each section absent or of its documented shape, each consumed leaf
absent or of its documented type. -/
def wellShaped (m : Json) : Bool :=
  match m with
  | .obj kvs =>
    sectionShaped kvs "cpu" cpuShaped && sectionShaped kvs "memory" memShaped &&
      listShaped kvs "disk" diskShaped && sectionShaped kvs "gpu" gpuShaped &&
      listShaped kvs "network" netShaped &&
      sectionShaped kvs "system_load" loadShaped
  | _ => false

/-- Whether an embedded Python computation ran without raising. -/
def okE {ε α : Type} : Except ε α → Bool
  | .ok _ => true
  | .error _ => false

/-- The result of an embedded Python computation, with a fallback for the
raising case. -/
def getE {ε α : Type} (x : Except ε α) (d : α) : α :=
  match x with
  | .ok a => a
  | .error _ => d

theorem bind_eq_ok {ε α β : Type} (x : Except ε α) (f : α → Except ε β)
    (r : β) : (x >>= f = Except.ok r) ↔ ∃ a, x = .ok a ∧ f a = .ok r := by
  cases x <;> simp [Bind.bind, Except.bind]

theorem pure_eq_ok {ε α : Type} (a r : α) :
    ((pure a : Except ε α) = Except.ok r) ↔ a = r := by
  simp [pure, Except.pure]

theorem map_eq_ok {ε α β : Type} (f : α → β) (x : Except ε α) (r : β) :
    (x.map f = Except.ok r) ↔ ∃ a, x = .ok a ∧ f a = r := by
  cases x <;> simp [Except.map]

theorem okE_bind {ε α β : Type} (x : Except ε α) (f : α → Except ε β) :
    (okE (x >>= f) = true) ↔ ∃ a, x = .ok a ∧ okE (f a) = true := by
  cases x <;> simp [Bind.bind, Except.bind, okE]

theorem okE_eq_ok {ε α : Type} (x : Except ε α) (d : α) (h : okE x = true) :
    x = .ok (getE x d) := by
  cases x with
  | ok a => rfl
  | error e => simp [okE] at h

/-- Claim C3: for every percentage `p`, `get_status_color` returns the
green hex exactly when `p < 50`, the yellow hex exactly when
`50 ≤ p < 80`, and the red hex exactly when `80 ≤ p`. -/
theorem status_color_trichotomy (p : ℚ) :
    (get_status_color p = "#28a745" ↔ p < 50) ∧
    (get_status_color p = "#ffc107" ↔ 50 ≤ p ∧ p < 80) ∧
    (get_status_color p = "#dc3545" ↔ 80 ≤ p) := by
  unfold get_status_color
  split_ifs with h₁ h₂
  · refine ⟨by simp [h₁], ?_, ?_⟩
    · constructor
      · intro h; exact absurd h (by decide)
      · rintro ⟨h, _⟩; exact absurd h₁ (not_lt.mpr h)
    · constructor
      · intro h; exact absurd h (by decide)
      · intro h; exact absurd h₁ (not_lt.mpr (le_trans (by norm_num) h))
  · refine ⟨?_, ?_, ?_⟩
    · constructor
      · intro h; exact absurd h (by decide)
      · intro h; exact absurd h h₁
    · simp [h₁, h₂, not_lt.mp h₁]
    · constructor
      · intro h; exact absurd h (by decide)
      · intro h; exact absurd h₂ (not_lt.mpr h)
  · refine ⟨?_, ?_, ?_⟩
    · constructor
      · intro h; exact absurd h (by decide)
      · intro h; exact absurd h h₁
    · constructor
      · intro h; exact absurd h (by decide)
      · rintro ⟨_, h⟩; exact absurd h h₂
    · simp [not_lt.mp h₂]

/-- Claim C5: on a missing input file the run prints the diagnostic naming
the collector command and writes no output, and on any other read or parse
failure it also writes no output. -/
theorem missing_input_writes_nothing (now : String) :
    (mainRun .missing now).2 = none ∧
    "Run './scripts/monitor.sh -o' first to collect metrics" ∈
      (mainRun .missing now).1 ∧
    ∀ e : String, (mainRun (.readFail e) now).2 = none := by
  refine ⟨rfl, ?_, fun e => rfl⟩
  simp [mainRun, load_metrics]

theorem suffixGi_append (t : List Char) :
    (['G', 'i'] : List Char).isSuffixOf (t ++ ['G', 'i']) = true := by
  simp [List.isSuffixOf, List.reverse_append, List.isPrefixOf]

theorem replaceGi_append (t : List Char) (h : hasGi t = false) :
    replaceGi (t ++ ['G', 'i']) = t ++ [' ', 'G', 'B'] := by
  induction t with
  | nil => simp [replaceGi]
  | cons c t' ih =>
    cases t' with
    | nil => simp [replaceGi]
    | cons d t'' =>
      simp only [hasGi, Bool.or_eq_false_iff, Bool.and_eq_false_iff] at h
      obtain ⟨h₁, h₂⟩ := h
      have hcd : ¬(c = 'G' ∧ d = 'i') := by
        rcases h₁ with h₁ | h₁ <;> simp [decide_eq_false_iff_not] at h₁ <;>
          exact fun hp => h₁ (by simp [hp.1, hp.2])
      simp only [List.cons_append, replaceGi, if_neg hcd]
      have := ih h₂
      exact congrArg (List.cons c) this

/-- Claim C4 counterexample: the size normaliser on `"1Gi2Gi"` rewrites the
interior occurrence of `"Gi"` as well, so the claim's "only the trailing
suffix is replaced, no other part of the string is altered" fails. -/
theorem normGi_rewrites_interior :
    normGi "1Gi2Gi" = "1 GB2 GB" ∧ normGi "1Gi2Gi" ≠ "1Gi2 GB" := by
  decide

/-- Claim C4 (amended): a string not ending in `"Gi"` is returned
unchanged; a string ending in `"Gi"` has every occurrence of `"Gi"`
replaced by `" GB"` — in particular, when the trailing suffix is the only
occurrence, only the suffix is changed; `"10Gi"` becomes `"10 GB"` and
`"10Gb"` stays `"10Gb"`. -/
theorem normGi_amended :
    (∀ s : String, (['G', 'i'] : List Char).isSuffixOf s.data = false →
      normGi s = s) ∧
    (∀ t : List Char, hasGi t = false →
      normGi (String.mk (t ++ ['G', 'i'])) = String.mk (t ++ [' ', 'G', 'B'])) ∧
    normGi "10Gi" = "10 GB" ∧ normGi "10Gb" = "10Gb" := by
  refine ⟨fun s h => ?_, fun t h => ?_, by decide, by decide⟩
  · simp [normGi, h]
  · simp only [normGi, suffixGi_append, if_pos]
    rw [replaceGi_append t h]

/-- Witness for `normGi_amended`: its hypotheses hold and its conclusion
evaluates at `"10Gb"` (not ending in `"Gi"`) and at `"10" ++ "Gi"` (no
interior occurrence). -/
theorem normGi_amended_witness :
    ((['G', 'i'] : List Char).isSuffixOf "10Gb".data = false ∧
      normGi "10Gb" = "10Gb") ∧
    (hasGi ['1', '0'] = false ∧
      normGi (String.mk (['1', '0'] ++ ['G', 'i'])) =
        String.mk (['1', '0'] ++ [' ', 'G', 'B'])) :=
  ⟨⟨by decide, normGi_amended.1 "10Gb" (by decide)⟩,
    ⟨by decide, normGi_amended.2.1 ['1', '0'] (by decide)⟩⟩

theorem roundHalfEven_intCast (m : ℤ) : roundHalfEven ((m : ℚ)) = m := by
  simp [roundHalfEven, Int.floor_intCast]

theorem fmtFixed_ofNat (prec : ℕ) (q : ℚ) (m : ℕ)
    (hq : q * (10 : ℚ) ^ prec = ((m : ℤ) : ℚ)) (hpos : 0 ≤ q) :
    fmtFixed prec q =
      if prec = 0 then toString ((m : ℤ) / (10 : ℤ) ^ prec)
      else toString ((m : ℤ) / (10 : ℤ) ^ prec) ++ "." ++
        zeroPad prec (toString (((m : ℤ) % (10 : ℤ) ^ prec)).toNat) := by
  rw [fmtFixed, if_neg (not_lt.mpr hpos), fmtFixedAbs]
  rw [hq, roundHalfEven_intCast]

theorem div_pow_lt_1024 (n k : ℕ) :
    ((n : ℚ) / (1024 : ℚ) ^ k < 1024) ↔ n < 1024 ^ (k + 1) := by
  rw [div_lt_iff₀ (by positivity : (0 : ℚ) < (1024 : ℚ) ^ k)]
  have h : (1024 : ℚ) * (1024 : ℚ) ^ k = ((1024 ^ (k + 1) : ℕ) : ℚ) := by
    push_cast
    ring
  rw [h]
  exact_mod_cast Iff.rfl

theorem dd1 (q : ℚ) : q / 1024 = q / 1024 ^ 1 := by norm_num

theorem dd2 (q : ℚ) : q / 1024 / 1024 = q / 1024 ^ 2 := by
  rw [div_div]
  norm_num

theorem dd3 (q : ℚ) : q / 1024 / 1024 / 1024 = q / 1024 ^ 3 := by
  rw [div_div, div_div]
  norm_num

theorem dd4 (q : ℚ) : q / 1024 / 1024 / 1024 / 1024 = q / 1024 ^ 4 := by
  rw [div_div, div_div, div_div]
  norm_num

theorem dd5 (q : ℚ) : q / 1024 / 1024 / 1024 / 1024 / 1024 = q / 1024 ^ 5 := by
  rw [div_div, div_div, div_div, div_div]
  norm_num

theorem go_eval_B (q : ℚ) (h : q < 1024) :
    format_bytes_go ["B", "KB", "MB", "GB", "TB"] q =
      fmtFixed 2 q ++ " " ++ "B" := by
  simp only [format_bytes_go, if_pos h]

theorem go_eval_KB (q : ℚ) (h0 : ¬q < 1024) (h : q / 1024 < 1024) :
    format_bytes_go ["B", "KB", "MB", "GB", "TB"] q =
      fmtFixed 2 (q / 1024) ++ " " ++ "KB" := by
  simp only [format_bytes_go, if_neg h0, if_pos h]

theorem go_eval_MB (q : ℚ) (h0 : ¬q < 1024) (h1 : ¬q / 1024 < 1024)
    (h : q / 1024 / 1024 < 1024) :
    format_bytes_go ["B", "KB", "MB", "GB", "TB"] q =
      fmtFixed 2 (q / 1024 / 1024) ++ " " ++ "MB" := by
  simp only [format_bytes_go, if_neg h0, if_neg h1, if_pos h]

theorem go_eval_GB (q : ℚ) (h0 : ¬q < 1024) (h1 : ¬q / 1024 < 1024)
    (h2 : ¬q / 1024 / 1024 < 1024) (h : q / 1024 / 1024 / 1024 < 1024) :
    format_bytes_go ["B", "KB", "MB", "GB", "TB"] q =
      fmtFixed 2 (q / 1024 / 1024 / 1024) ++ " " ++ "GB" := by
  simp only [format_bytes_go, if_neg h0, if_neg h1, if_neg h2, if_pos h]

theorem go_eval_TB (q : ℚ) (h0 : ¬q < 1024) (h1 : ¬q / 1024 < 1024)
    (h2 : ¬q / 1024 / 1024 < 1024) (h3 : ¬q / 1024 / 1024 / 1024 < 1024)
    (h : q / 1024 / 1024 / 1024 / 1024 < 1024) :
    format_bytes_go ["B", "KB", "MB", "GB", "TB"] q =
      fmtFixed 2 (q / 1024 / 1024 / 1024 / 1024) ++ " " ++ "TB" := by
  simp only [format_bytes_go, if_neg h0, if_neg h1, if_neg h2, if_neg h3,
    if_pos h]

theorem go_eval_PB (q : ℚ) (h0 : ¬q < 1024) (h1 : ¬q / 1024 < 1024)
    (h2 : ¬q / 1024 / 1024 < 1024) (h3 : ¬q / 1024 / 1024 / 1024 < 1024)
    (h4 : ¬q / 1024 / 1024 / 1024 / 1024 < 1024) :
    format_bytes_go ["B", "KB", "MB", "GB", "TB"] q =
      fmtFixed 2 (q / 1024 / 1024 / 1024 / 1024 / 1024) ++ " " ++ "PB" := by
  simp only [format_bytes_go, if_neg h0, if_neg h1, if_neg h2, if_neg h3,
    if_neg h4]

/-- Claim C1: the byte formatter returns `"0 B"` at zero and otherwise the
value scaled by repeated division by 1024, rendered with two decimals and
the smallest sufficient unit of `B, KB, MB, GB, TB, PB` (PB as ceiling) —
it agrees with the spec-side `format_bytes_spec` on every natural number,
and matches the documented examples. -/
theorem format_bytes_meets_spec :
    (∀ n : ℕ, format_bytes (n : ℚ) = format_bytes_spec n) ∧
    format_bytes 0 = "0 B" ∧ format_bytes 1023 = "1023.00 B" ∧
    format_bytes 1024 = "1.00 KB" ∧ format_bytes 1536 = "1.50 KB" ∧
    format_bytes (1024 ^ 4) = "1.00 TB" := by
  refine ⟨fun n => ?_, ?_, ?_, ?_, ?_, ?_⟩
  case refine_2 =>
    rw [format_bytes, if_pos rfl]
  case refine_3 =>
    rw [format_bytes, if_neg (by norm_num),
      go_eval_B _ (by norm_num : (1023 : ℚ) < 1024),
      fmtFixed_ofNat 2 _ 102300 (by norm_num) (by norm_num)]
    decide
  case refine_4 =>
    rw [format_bytes, if_neg (by norm_num),
      go_eval_KB _ (by norm_num) (by norm_num),
      fmtFixed_ofNat 2 _ 100 (by norm_num) (by positivity)]
    decide
  case refine_5 =>
    rw [format_bytes, if_neg (by norm_num),
      go_eval_KB _ (by norm_num) (by norm_num),
      fmtFixed_ofNat 2 _ 150 (by norm_num) (by positivity)]
    decide
  case refine_6 =>
    rw [format_bytes, if_neg (by norm_num),
      go_eval_TB _ (by norm_num) (by norm_num) (by norm_num) (by norm_num)
        (by norm_num),
      fmtFixed_ofNat 2 _ 100 (by norm_num) (by positivity)]
    decide
  by_cases h0 : n = 0
  · subst h0
    simp [format_bytes, format_bytes_spec]
  · have hq0 : (n : ℚ) ≠ 0 := Nat.cast_ne_zero.mpr h0
    rw [format_bytes, format_bytes_spec, if_neg hq0, if_neg h0]
    by_cases h1 : n < 1024
    · rw [go_eval_B _ (by exact_mod_cast h1), if_pos h1]
    · have hq1 : ¬(n : ℚ) < 1024 := by exact_mod_cast h1
      have hp1 : ¬(n : ℚ) / 1024 ^ 1 < 1024 → ¬(n : ℚ) / 1024 < 1024 := by
        rw [dd1 (n : ℚ)]
        exact id
      rw [if_neg h1]
      by_cases h2 : n < 1024 ^ 2
      · have : (n : ℚ) / 1024 < 1024 := by
          rw [dd1]
          exact (div_pow_lt_1024 n 1).mpr (by simpa using h2)
        rw [go_eval_KB _ hq1 this, if_pos h2]
      · have hq2 : ¬(n : ℚ) / 1024 < 1024 := by
          rw [dd1]
          exact (div_pow_lt_1024 n 1).not.mpr (by simpa using h2)
        rw [if_neg h2]
        by_cases h3 : n < 1024 ^ 3
        · have : (n : ℚ) / 1024 / 1024 < 1024 := by
            rw [dd2]
            exact (div_pow_lt_1024 n 2).mpr (by simpa using h3)
          rw [go_eval_MB _ hq1 hq2 this, if_pos h3, dd2]
        · have hq3 : ¬(n : ℚ) / 1024 / 1024 < 1024 := by
            rw [dd2]
            exact (div_pow_lt_1024 n 2).not.mpr (by simpa using h3)
          rw [if_neg h3]
          by_cases h4 : n < 1024 ^ 4
          · have : (n : ℚ) / 1024 / 1024 / 1024 < 1024 := by
              rw [dd3]
              exact (div_pow_lt_1024 n 3).mpr (by simpa using h4)
            rw [go_eval_GB _ hq1 hq2 hq3 this, if_pos h4, dd3]
          · have hq4 : ¬(n : ℚ) / 1024 / 1024 / 1024 < 1024 := by
              rw [dd3]
              exact (div_pow_lt_1024 n 3).not.mpr (by simpa using h4)
            rw [if_neg h4]
            by_cases h5 : n < 1024 ^ 5
            · have : (n : ℚ) / 1024 / 1024 / 1024 / 1024 < 1024 := by
                rw [dd4]
                exact (div_pow_lt_1024 n 4).mpr (by simpa using h5)
              rw [go_eval_TB _ hq1 hq2 hq3 hq4 this, if_pos h5, dd4]
            · have hq5 : ¬(n : ℚ) / 1024 / 1024 / 1024 / 1024 < 1024 := by
                rw [dd4]
                exact (div_pow_lt_1024 n 4).not.mpr (by simpa using h5)
              rw [go_eval_PB _ hq1 hq2 hq3 hq4 hq5, if_neg h5, dd5]

/-- A JSON leaf that is a string. -/
def okStr (v : Json) : Bool :=
  match v with
  | .str _ => true
  | _ => false

/-- A JSON value that is a dict. -/
def isObjB (v : Json) : Bool :=
  match v with
  | .obj _ => true
  | _ => false

theorem pyGetD_obj (kvs : List (String × Json)) (key : String) (d : Json) :
    pyGetD (.obj kvs) key d = .ok ((kvs.lookup key).getD d) := rfl

theorem okE_pure {ε α : Type} (a : α) : okE (pure a : Except ε α) = true := rfl

theorem pyFixed_ok (prec : ℕ) (v : Json) (h : okNum v = true) :
    ∃ s, pyFixed prec v = .ok s := by
  cases v <;> simp [okNum] at h <;> exact ⟨_, rfl⟩

theorem pyStatusColor_ok (v : Json) (h : okNum v = true) :
    ∃ s, pyStatusColor v = .ok s := by
  cases v <;> simp [okNum] at h <;> exact ⟨_, rfl⟩

theorem pyDivFixed2_ok (v : Json) (h : okNum v = true) :
    ∃ s, pyDivFixed2 v = .ok s := by
  cases v <;> simp [okNum] at h <;> exact ⟨_, rfl⟩

theorem pyFormatBytes_ok (v : Json) (h : okNum v = true) :
    ∃ s, pyFormatBytes v = .ok s := by
  cases v <;> simp [okNum] at h <;> exact ⟨_, rfl⟩

theorem pyComma_ok (v : Json) (h : okNum v = true) :
    ∃ s, pyComma v = .ok s := by
  cases v <;> simp [okNum] at h <;> exact ⟨_, rfl⟩

theorem pyGtZero_ok (v : Json) (h : okNum v = true) :
    ∃ b, pyGtZero v = .ok b := by
  cases v <;> simp [okNum] at h <;> exact ⟨_, rfl⟩

theorem pyNormGi_ok (v : Json) (h : okStr v = true) :
    ∃ s, pyNormGi v = .ok s := by
  cases v <;> simp [okStr] at h
  exact ⟨_, rfl⟩

theorem fieldNum_getD (kvs : List (String × Json)) (key : String)
    (h : fieldNum kvs key = true) :
    okNum ((kvs.lookup key).getD (.int 0)) = true := by
  unfold fieldNum at h
  cases hl : kvs.lookup key with
  | none => simp [hl, okNum]
  | some v => rw [hl] at h; simpa [hl] using h

theorem fieldStr_getD (kvs : List (String × Json)) (key : String) (r : String)
    (h : fieldStr kvs key = true) :
    okStr ((kvs.lookup key).getD (.str r)) = true := by
  unfold fieldStr at h
  cases hl : kvs.lookup key with
  | none => simp [hl, okStr]
  | some v =>
    rw [hl] at h
    cases v <;> simp_all [okStr]

theorem fieldNum_numQ (kvs : List (String × Json)) (key : String)
    (h : fieldNum kvs key = true) :
    pyNumQ ((kvs.lookup key).getD (.int 0)) =
      some (numFieldOf (.obj kvs) key) := by
  unfold fieldNum at h
  unfold numFieldOf
  cases hl : kvs.lookup key with
  | none => simp [hl, pyNumQ]
  | some v =>
    rw [hl] at h
    cases v <;> simp_all [okNum, pyNumQ]

theorem fsNameOf_getD (kvs : List (String × Json))
    (h : fieldStr kvs "filesystem" = true) :
    (kvs.lookup "filesystem").getD (.str "") = .str (fsNameOf (.obj kvs)) := by
  unfold fieldStr at h
  unfold fsNameOf
  cases hl : kvs.lookup "filesystem" with
  | none => simp [hl]
  | some v =>
    rw [hl] at h
    cases v <;> simp_all

theorem ok_bind {ε α β : Type} (a : α) (f : α → Except ε β) :
    (Except.ok a >>= f) = f a := rfl

theorem pureE {ε α : Type} (a : α) : (pure a : Except ε α) = Except.ok a := rfl

/-- The disk filter on well-shaped entries is exactly the order-preserving
`List.filter` of the spec-side predicate. -/
theorem filterDisks_eq (ds : List Json)
    (h : ∀ d ∈ ds, diskFilterShaped d = true) :
    filterDisks ds = .ok (ds.filter diskKeep) := by
  induction ds with
  | nil => rfl
  | cons d rest ih =>
    have hd := h d (List.mem_cons_self d rest)
    have hrest := ih fun x hx => h x (List.mem_cons_of_mem d hx)
    obtain ⟨kvs, rfl⟩ : ∃ kvs, d = .obj kvs := by
      cases d <;> simp [diskFilterShaped] at hd <;> exact ⟨_, rfl⟩
    rw [diskFilterShaped] at hd
    have hfs := fsNameOf_getD kvs hd
    simp only [filterDisks, pyGetD_obj, hfs]
    by_cases h₁ : strStartsWith (fsNameOf (.obj kvs)) "devfs"
    · have hk : diskKeep (.obj kvs) = false := by
        simp [diskKeep, h₁]
      simp [ok_bind, pureE, pyStartsWith, h₁, hrest, List.filter, hk]
    · by_cases h₂ : strStartsWith (fsNameOf (.obj kvs)) "map"
      · have hk : diskKeep (.obj kvs) = false := by
          simp [diskKeep, h₂]
        simp [ok_bind, pureE, pyStartsWith, h₁, h₂, hrest, List.filter, hk]
      · have hk : diskKeep (.obj kvs) = true := by
          simp [diskKeep, h₁, h₂]
        simp [ok_bind, pureE, pyStartsWith, h₁, h₂, hrest, List.filter, hk]

/-- The network filter on well-shaped entries is exactly the
order-preserving `List.filter` of the spec-side predicate. -/
theorem filterNets_eq (ds : List Json)
    (h : ∀ d ∈ ds, netFilterShaped d = true) :
    filterNets ds = .ok (ds.filter netKeep) := by
  induction ds with
  | nil => rfl
  | cons d rest ih =>
    have hd := h d (List.mem_cons_self d rest)
    have hrest := ih fun x hx => h x (List.mem_cons_of_mem d hx)
    obtain ⟨kvs, rfl⟩ : ∃ kvs, d = .obj kvs := by
      cases d <;> simp [netFilterShaped] at hd <;> exact ⟨_, rfl⟩
    rw [netFilterShaped, Bool.and_eq_true] at hd
    have hrx := fieldNum_numQ kvs "rx_bytes" hd.1
    have htx := fieldNum_numQ kvs "tx_bytes" hd.2
    simp only [filterNets, pyGetD_obj, pyGtZero, hrx, htx]
    by_cases h₁ : 0 < numFieldOf (.obj kvs) "rx_bytes"
    · have hk : netKeep (.obj kvs) = true := by
        simp [netKeep, h₁]
      simp [ok_bind, pureE, hrx, htx, h₁, hrest, List.filter, hk]
    · by_cases h₂ : 0 < numFieldOf (.obj kvs) "tx_bytes"
      · have hk : netKeep (.obj kvs) = true := by
          simp [netKeep, h₂]
        simp [ok_bind, pureE, hrx, htx, h₁, h₂, hrest, List.filter, hk]
      · have hk : netKeep (.obj kvs) = false := by
          simp [netKeep, h₁, h₂]
        simp [ok_bind, pureE, hrx, htx, h₁, h₂, hrest, List.filter, hk]

theorem pyIter_arr (xs : List Json) : pyIter (.arr xs) = .ok xs := rfl

theorem okE_ok {ε α : Type} (a : α) : okE (Except.ok a : Except ε α) = true := rfl

theorem okE_exists {ε α : Type} {x : Except ε α} (h : okE x = true) :
    ∃ a, x = .ok a := by
  cases x with
  | ok a => exact ⟨a, rfl⟩
  | error e => simp [okE] at h

theorem sectionShaped_getD (kvs : List (String × Json)) (key : String)
    (p : Json → Bool) (hp : p (.obj []) = true)
    (h : sectionShaped kvs key p = true) :
    p ((kvs.lookup key).getD (.obj [])) = true := by
  unfold sectionShaped at h
  cases hl : kvs.lookup key with
  | none => simpa [hl] using hp
  | some v => rw [hl] at h; simpa [hl] using h

theorem listShaped_getD (kvs : List (String × Json)) (key : String)
    (p : Json → Bool) (h : listShaped kvs key p = true) :
    ∃ xs, (kvs.lookup key).getD (.arr []) = .arr xs ∧
      ∀ d ∈ xs, p d = true := by
  unfold listShaped at h
  cases hl : kvs.lookup key with
  | none => exact ⟨[], by simp [hl], by simp⟩
  | some v =>
    rw [hl] at h
    cases v <;> simp_all

theorem cpuShaped_obj (v : Json) (h : cpuShaped v = true) :
    ∃ ckvs, v = .obj ckvs ∧ fieldNum ckvs "cpu_usage_percent" = true := by
  cases v <;> simp_all [cpuShaped]

theorem memShaped_obj (v : Json) (h : memShaped v = true) :
    ∃ mkvs, v = .obj mkvs ∧ fieldNum mkvs "memory_total_mb" = true ∧
      fieldNum mkvs "memory_used_mb" = true ∧
      fieldNum mkvs "memory_available_mb" = true ∧
      fieldNum mkvs "memory_usage_percent" = true ∧
      fieldNum mkvs "swap_total_mb" = true ∧
      fieldNum mkvs "swap_used_mb" = true ∧
      fieldNum mkvs "swap_usage_percent" = true := by
  cases v <;> simp_all [memShaped]

theorem loadShaped_obj (v : Json) (h : loadShaped v = true) :
    ∃ slk, v = .obj slk ∧ fieldNum slk "load_1min" = true ∧
      fieldNum slk "load_5min" = true ∧ fieldNum slk "load_15min" = true := by
  cases v <;> simp_all [loadShaped]

theorem gpuShaped_obj (v : Json) (h : gpuShaped v = true) :
    ∃ gkvs, v = .obj gkvs := by
  cases v <;> simp_all [gpuShaped]

theorem diskShaped_filterShaped (d : Json) (h : diskShaped d = true) :
    diskFilterShaped d = true := by
  cases d <;> simp_all [diskShaped, diskFilterShaped]

theorem netShaped_filterShaped (d : Json) (h : netShaped d = true) :
    netFilterShaped d = true := by
  cases d <;> simp_all [netShaped, netFilterShaped]

theorem mkHeaderChunk_ok (mk slk : List (String × Json))
    (cu cc ct cm la mt mu ma mp : Json)
    (hcu : okNum cu = true) (hmt : okNum mt = true) (hmu : okNum mu = true)
    (hma : okNum ma = true) (hmp : okNum mp = true) :
    ∃ s, mkHeaderChunk (.obj mk) (.obj slk) cu cc ct cm la mt mu ma mp =
      .ok s := by
  obtain ⟨f₁, hf₁⟩ := pyFixed_ok 1 cu hcu
  obtain ⟨c₁, hc₁⟩ := pyStatusColor_ok cu hcu
  obtain ⟨t₁, ht₁⟩ := pyDivFixed2_ok mt hmt
  obtain ⟨t₂, ht₂⟩ := pyDivFixed2_ok mu hmu
  obtain ⟨t₃, ht₃⟩ := pyDivFixed2_ok ma hma
  obtain ⟨pc, hpc⟩ := pyStatusColor_ok mp hmp
  obtain ⟨p₁, hp₁⟩ := pyFixed_ok 1 mp hmp
  apply okE_exists
  simp only [mkHeaderChunk, pyGetD_obj, ok_bind, hf₁, hc₁, ht₁, ht₂, ht₃,
    hpc, hp₁, pureE, okE_ok]

theorem mkSwapPart_ok (st su sp : Json) (hst : okNum st = true)
    (hsu : okNum su = true) (hsp : okNum sp = true) :
    ∃ s, mkSwapPart st su sp = .ok s := by
  obtain ⟨b, hb⟩ := pyGtZero_ok st hst
  obtain ⟨f₁, hf₁⟩ := pyDivFixed2_ok st hst
  obtain ⟨f₂, hf₂⟩ := pyDivFixed2_ok su hsu
  obtain ⟨c, hc⟩ := pyStatusColor_ok sp hsp
  obtain ⟨p, hp⟩ := pyFixed_ok 1 sp hsp
  cases b
  · exact ⟨"", by simp [mkSwapPart, hb, ok_bind, pureE]⟩
  · apply okE_exists
    simp only [mkSwapPart, hb, ok_bind, hf₁, hf₂, hc, hp, pureE, if_true,
      okE_ok]

theorem mkDiskRow_ok (d : Json) (h : diskShaped d = true) :
    ∃ s, mkDiskRow d = .ok s := by
  obtain ⟨kvs, rfl⟩ : ∃ kvs, d = .obj kvs := by
    cases d <;> simp [diskShaped] at h <;> exact ⟨_, rfl⟩
  rw [diskShaped] at h
  simp only [Bool.and_eq_true] at h
  obtain ⟨⟨⟨⟨hfs, hsz⟩, hus⟩, hav⟩, hup⟩ := h
  obtain ⟨n₁, hn₁⟩ := pyNormGi_ok _ (fieldStr_getD kvs "size" "N/A" hsz)
  obtain ⟨n₂, hn₂⟩ := pyNormGi_ok _ (fieldStr_getD kvs "used" "N/A" hus)
  obtain ⟨n₃, hn₃⟩ := pyNormGi_ok _ (fieldStr_getD kvs "available" "N/A" hav)
  obtain ⟨c, hc⟩ := pyStatusColor_ok _ (fieldNum_getD kvs "use_percent" hup)
  apply okE_exists
  simp only [mkDiskRow, pyGetD_obj, ok_bind, hn₁, hn₂, hn₃, hc, pureE, okE_ok]

theorem diskRows_ok (ds : List Json) (h : ∀ d ∈ ds, diskShaped d = true) :
    ∃ s, diskRows ds = .ok s := by
  induction ds with
  | nil => exact ⟨"", rfl⟩
  | cons d rest ih =>
    obtain ⟨r, hr⟩ := mkDiskRow_ok d (h d (List.mem_cons_self d rest))
    obtain ⟨rs, hrs⟩ := ih fun x hx => h x (List.mem_cons_of_mem d hx)
    exact ⟨r ++ rs, by simp [diskRows, hr, hrs, ok_bind, pureE]⟩

theorem mkDiskChunk_ok (ds : List Json) (h : ∀ d ∈ ds, diskShaped d = true) :
    ∃ s, mkDiskChunk ds = .ok s := by
  by_cases he : ds.isEmpty
  · exact ⟨noDisk, by simp [mkDiskChunk, he, pureE]⟩
  · obtain ⟨rs, hrs⟩ := diskRows_ok ds h
    exact ⟨dHead ++ rs ++ dFoot, by simp [mkDiskChunk, he, hrs, ok_bind, pureE]⟩

theorem mkGpuChunk_ok (gkvs : List (String × Json)) :
    ∃ s, mkGpuChunk (.obj gkvs) = .ok s := by
  apply okE_exists
  simp only [mkGpuChunk, pyGetD_obj, ok_bind, pureE, okE_ok]

theorem mkNetRow_ok (d : Json) (h : netShaped d = true) :
    ∃ s, mkNetRow d = .ok s := by
  obtain ⟨kvs, rfl⟩ : ∃ kvs, d = .obj kvs := by
    cases d <;> simp [netShaped] at h <;> exact ⟨_, rfl⟩
  rw [netShaped] at h
  simp only [Bool.and_eq_true] at h
  obtain ⟨⟨⟨hrx, htx⟩, hrp⟩, htp⟩ := h
  obtain ⟨b₁, hb₁⟩ := pyFormatBytes_ok _ (fieldNum_getD kvs "rx_bytes" hrx)
  obtain ⟨b₂, hb₂⟩ := pyFormatBytes_ok _ (fieldNum_getD kvs "tx_bytes" htx)
  obtain ⟨p₁, hp₁⟩ := pyComma_ok _ (fieldNum_getD kvs "rx_packets" hrp)
  obtain ⟨p₂, hp₂⟩ := pyComma_ok _ (fieldNum_getD kvs "tx_packets" htp)
  apply okE_exists
  simp only [mkNetRow, pyGetD_obj, ok_bind, hb₁, hb₂, hp₁, hp₂, pureE, okE_ok]

theorem netRows_ok (ds : List Json) (h : ∀ d ∈ ds, netShaped d = true) :
    ∃ s, netRows ds = .ok s := by
  induction ds with
  | nil => exact ⟨"", rfl⟩
  | cons d rest ih =>
    obtain ⟨r, hr⟩ := mkNetRow_ok d (h d (List.mem_cons_self d rest))
    obtain ⟨rs, hrs⟩ := ih fun x hx => h x (List.mem_cons_of_mem d hx)
    exact ⟨r ++ rs, by simp [netRows, hr, hrs, ok_bind, pureE]⟩

theorem mkNetChunk_ok (ds : List Json) (h : ∀ d ∈ ds, netShaped d = true) :
    ∃ s, mkNetChunk ds = .ok s := by
  by_cases he : ds.isEmpty
  · exact ⟨noNet, by simp [mkNetChunk, he, pureE]⟩
  · obtain ⟨rs, hrs⟩ := netRows_ok ds h
    exact ⟨nHead ++ rs ++ nFoot, by simp [mkNetChunk, he, hrs, ok_bind, pureE]⟩

theorem mkLoadChunk_ok (slk : List (String × Json))
    (h₁ : fieldNum slk "load_1min" = true)
    (h₅ : fieldNum slk "load_5min" = true)
    (h₁₅ : fieldNum slk "load_15min" = true) :
    ∃ s, mkLoadChunk (.obj slk) = .ok s := by
  obtain ⟨a₁, ha₁⟩ := pyFixed_ok 2 _ (fieldNum_getD slk "load_1min" h₁)
  obtain ⟨a₅, ha₅⟩ := pyFixed_ok 2 _ (fieldNum_getD slk "load_5min" h₅)
  obtain ⟨a₁₅, ha₁₅⟩ := pyFixed_ok 2 _ (fieldNum_getD slk "load_15min" h₁₅)
  apply okE_exists
  simp only [mkLoadChunk, pyGetD_obj, ok_bind, ha₁, ha₅, ha₁₅, pureE, okE_ok]

/-- Rendering succeeds on every snapshot that is well-shaped per §3 (every
present field of its documented type, any subset of fields missing). -/
theorem genBody_ok (m : Json) (h : wellShaped m = true) :
    ∃ s, genBody m = .ok s := by
  obtain ⟨kvs, rfl⟩ : ∃ kvs, m = .obj kvs := by
    cases m <;> simp [wellShaped] at h <;> exact ⟨_, rfl⟩
  rw [wellShaped] at h
  simp only [Bool.and_eq_true] at h
  obtain ⟨⟨⟨⟨⟨hcpu, hmem⟩, hdisk⟩, hgpu⟩, hnet⟩, hsl⟩ := h
  have hc := sectionShaped_getD kvs "cpu" cpuShaped (by rfl) hcpu
  have hm := sectionShaped_getD kvs "memory" memShaped (by rfl) hmem
  have hg := sectionShaped_getD kvs "gpu" gpuShaped (by rfl) hgpu
  have hl := sectionShaped_getD kvs "system_load" loadShaped (by rfl) hsl
  obtain ⟨ckvs, hceq, hcun⟩ := cpuShaped_obj _ hc
  obtain ⟨mkvs, hmeq, hmt, hmu, hma, hmp, hst, hsu, hsp⟩ := memShaped_obj _ hm
  obtain ⟨gkvs, hgeq⟩ := gpuShaped_obj _ hg
  obtain ⟨slk, hleq, hl1, hl5, hl15⟩ := loadShaped_obj _ hl
  obtain ⟨dxs, hdeq, hdall⟩ := listShaped_getD kvs "disk" diskShaped hdisk
  obtain ⟨nxs, hneq, hnall⟩ := listShaped_getD kvs "network" netShaped hnet
  have hfd : filterDisks dxs = .ok (dxs.filter diskKeep) :=
    filterDisks_eq dxs fun d hd => diskShaped_filterShaped d (hdall d hd)
  have hfn : filterNets nxs = .ok (nxs.filter netKeep) :=
    filterNets_eq nxs fun d hd => netShaped_filterShaped d (hnall d hd)
  obtain ⟨hs, hhs⟩ := mkHeaderChunk_ok kvs slk
    ((ckvs.lookup "cpu_usage_percent").getD (.int 0))
    ((ckvs.lookup "cpu_cores").getD (.int 0))
    ((ckvs.lookup "cpu_temperature").getD (.str "N/A"))
    ((ckvs.lookup "cpu_model").getD (.str "Unknown"))
    ((ckvs.lookup "load_average").getD (.str "N/A"))
    ((mkvs.lookup "memory_total_mb").getD (.int 0))
    ((mkvs.lookup "memory_used_mb").getD (.int 0))
    ((mkvs.lookup "memory_available_mb").getD (.int 0))
    ((mkvs.lookup "memory_usage_percent").getD (.int 0))
    (fieldNum_getD ckvs "cpu_usage_percent" hcun)
    (fieldNum_getD mkvs "memory_total_mb" hmt)
    (fieldNum_getD mkvs "memory_used_mb" hmu)
    (fieldNum_getD mkvs "memory_available_mb" hma)
    (fieldNum_getD mkvs "memory_usage_percent" hmp)
  obtain ⟨ss, hss⟩ := mkSwapPart_ok
    ((mkvs.lookup "swap_total_mb").getD (.int 0))
    ((mkvs.lookup "swap_used_mb").getD (.int 0))
    ((mkvs.lookup "swap_usage_percent").getD (.int 0))
    (fieldNum_getD mkvs "swap_total_mb" hst)
    (fieldNum_getD mkvs "swap_used_mb" hsu)
    (fieldNum_getD mkvs "swap_usage_percent" hsp)
  obtain ⟨dc, hdc⟩ := mkDiskChunk_ok (dxs.filter diskKeep)
    fun d hd => hdall d (List.mem_of_mem_filter hd)
  obtain ⟨gc, hgc⟩ := mkGpuChunk_ok gkvs
  obtain ⟨nc, hnc⟩ := mkNetChunk_ok (nxs.filter netKeep)
    fun d hd => hnall d (List.mem_of_mem_filter hd)
  obtain ⟨lc, hlc⟩ := mkLoadChunk_ok slk hl1 hl5 hl15
  apply okE_exists
  simp only [genBody, pyGetD_obj, ok_bind, hceq, hmeq, hgeq, hleq, hdeq,
    hneq, pyIter_arr, hfd, hfn, hhs, hss, hdc, hgc, hnc, hlc, pureE, okE_ok]

theorem str_append_assoc (a b c : String) : a ++ b ++ c = a ++ (b ++ c) :=
  String.append_assoc a b c

/-- A successful render factors into the section chunks: the swap chunk,
the disk chunk and the network chunk each sit at their fixed position in
the output, and each equals the replay of its extraction steps. -/
theorem genBody_decomp (m : Json) (s : String) (h : genBody m = .ok s) :
    ∃ hdr sw md dkc gpc na ntc ldc,
      swapChunkOf m = .ok sw ∧
      mainDisksOf m = .ok md ∧ mkDiskChunk md = .ok dkc ∧
      activeNetsOf m = .ok na ∧ mkNetChunk na = .ok ntc ∧
      s = hdr ++ sw ++ dOpen ++ dkc ++ gOpen ++ gpc ++ nOpen ++ ntc ++
        lOpen ++ ldc := by
  simp only [genBody, bind_eq_ok, pure_eq_ok] at h
  obtain ⟨cpu, h1, memory, h2, disks, h3, gpu, h4, networks, h5,
    system_load, h6, cu, h7, cc, h8, ct, h9, cmo, h10, la, h11, mt, h12,
    mu, h13, ma, h14, mp, h15, st, h16, su, h17, sp, h18, di, h19, md, h20,
    ni, h21, an, h22, hdr, h23, sw, h24, dkc, h25, gpc, h26, ntc, h27,
    ldc, h28, hs⟩ := h
  refine ⟨hdr, sw, md, dkc, gpc, an, ntc, ldc, ?_, ?_, h25, ?_, h27, hs.symm⟩
  · simp only [swapChunkOf, h2, ok_bind, h16, h17, h18]
    exact h24
  · simp only [mainDisksOf, h3, ok_bind, h19]
    exact h20
  · simp only [activeNetsOf, h5, ok_bind, h21]
    exact h22

set_option maxRecDepth 8192 in
/-- Claim C8: the rendered document contains the swap block exactly when
the snapshot's swap total is positive — every successful render carries the
swap chunk at its fixed position; that chunk opens with the swap block
markup and is nonempty when the swap total is positive, and is the empty
string when it is not; in particular a snapshot without a `swap_total_mb`
key (defaulting to 0) renders no swap block. -/
theorem swap_block_iff_positive_total :
    (∀ m s, genBody m = .ok s →
      ∃ A sw B, swapChunkOf m = .ok sw ∧ s = A ++ sw ++ B) ∧
    (∀ st su sp q r, pyNumQ st = some q → 0 < q →
      mkSwapPart st su sp = .ok r → r ≠ "" ∧ ∃ rest, r = sw0 ++ rest) ∧
    (∀ st su sp q, pyNumQ st = some q → ¬0 < q →
      mkSwapPart st su sp = .ok "") ∧
    swapChunkOf
      (Json.obj [("memory", Json.obj [("memory_total_mb", Json.int 2048)])]) =
      .ok "" := by
  refine ⟨?_, ?_, ?_, rfl⟩
  · intro m s h
    obtain ⟨hdr, sw, md, dkc, gpc, na, ntc, ldc, hsw, _, _, _, _, hs⟩ :=
      genBody_decomp m s h
    refine ⟨hdr, sw,
      dOpen ++ dkc ++ gOpen ++ gpc ++ nOpen ++ ntc ++ lOpen ++ ldc, hsw, ?_⟩
    rw [hs]
    simp only [str_append_assoc]
  · intro st su sp q r hq hpos hr
    have hgt : pyGtZero st = .ok true := by
      simp [pyGtZero, hq, hpos]
    simp only [mkSwapPart, hgt, ok_bind, if_true, bind_eq_ok, pure_eq_ok]
      at hr
    obtain ⟨f₁, hf₁, f₂, hf₂, c₁, hc₁, p₁, hp₁, c₂, hc₂, p₂, hp₂, hr'⟩ := hr
    have hr'' : r = sw0 ++
        (f₁ ++ sw1 ++ f₂ ++ sw2 ++ c₁ ++ sw3 ++ p₁ ++ sw4 ++ pyStr sp ++
          sw5 ++ c₂ ++ sw6 ++ p₂ ++ sw7) := by
      rw [← hr']
      simp only [str_append_assoc]
    constructor
    · rw [hr'']
      intro he
      have hlen := congrArg String.length he
      rw [String.length_append] at hlen
      have h0 : sw0.length ≠ 0 := by decide
      simp at hlen
      omega
    · exact ⟨_, hr''⟩
  · intro st su sp q hq hpos
    have hgt : pyGtZero st = .ok false := by
      simp [pyGtZero, hq, hpos]
    simp [mkSwapPart, hgt, ok_bind, pureE]

/-- Witness for `swap_block_iff_positive_total`: a render with a positive
swap total carries a nonempty swap chunk; a zero swap total yields the
empty chunk. -/
theorem swap_block_witness :
    (pyNumQ (Json.int 512) = some ((512 : ℤ) : ℚ) ∧ 0 < ((512 : ℤ) : ℚ) ∧
      getE (mkSwapPart (Json.int 512) (Json.int 100) (Json.int 10)) "" ≠ "") ∧
    (pyNumQ (Json.int 0) = some ((0 : ℤ) : ℚ) ∧ ¬0 < ((0 : ℤ) : ℚ) ∧
      mkSwapPart (Json.int 0) (Json.int 100) (Json.int 10) = .ok "") := by
  refine ⟨⟨rfl, by decide, ?_⟩, ⟨rfl, by decide, ?_⟩⟩
  · exact (swap_block_iff_positive_total.2.1 (Json.int 512) (Json.int 100)
      (Json.int 10) ((512 : ℤ) : ℚ) _ rfl (by decide)
      (okE_eq_ok _ "" (by rfl))).1
  · exact swap_block_iff_positive_total.2.2.1 (Json.int 0) (Json.int 100)
      (Json.int 10) ((0 : ℤ) : ℚ) rfl (by decide)

/-- Claim C9: rendering is a function of the snapshot and the generation
time only — two runs on the same snapshot succeed or fail together, and on
success their outputs are byte-identical except for the interpolated
footer timestamp. -/
theorem render_deterministic (m : Json) (t₁ t₂ : String) :
    okE (generate_html m t₁) = okE (generate_html m t₂) ∧
    ∀ s₁ s₂, generate_html m t₁ = .ok s₁ → generate_html m t₂ = .ok s₂ →
      ∃ b, s₁ = b ++ ft0 ++ t₁ ++ ft1 ∧ s₂ = b ++ ft0 ++ t₂ ++ ft1 := by
  constructor
  · cases hb : genBody m <;> simp [generate_html, hb, Except.map, okE]
  · intro s₁ s₂ h₁ h₂
    rw [generate_html] at h₁ h₂
    obtain ⟨b₁, hb₁, hs₁⟩ := (map_eq_ok _ _ _).mp h₁
    obtain ⟨b₂, hb₂, hs₂⟩ := (map_eq_ok _ _ _).mp h₂
    rw [hb₁] at hb₂
    injection hb₂ with hbb
    subst hbb
    exact ⟨b₁, hs₁.symm, hs₂.symm⟩

/-- Witness for `render_deterministic`: two renders of the empty snapshot
at different times share the whole document up to the footer timestamp. -/
theorem render_deterministic_witness :
    ∃ b, getE (generate_html (Json.obj []) "2025-01-01 00:00:00") "" =
        b ++ ft0 ++ "2025-01-01 00:00:00" ++ ft1 ∧
      getE (generate_html (Json.obj []) "2026-12-31 23:59:59") "" =
        b ++ ft0 ++ "2026-12-31 23:59:59" ++ ft1 :=
  (render_deterministic (Json.obj []) "2025-01-01 00:00:00"
      "2026-12-31 23:59:59").2 _ _
    (okE_eq_ok _ "" (by rfl)) (okE_eq_ok _ "" (by rfl))

/-- Claim C2 counterexample: a snapshot whose `cpu_usage_percent` is the
string `"high"` makes the renderer raise a `ValueError` in the
`f"{cpu_usage:.1f}"` interpolation instead of degrading to a default. -/
theorem render_raises_on_mistyped_value :
    generate_html
      (Json.obj [("cpu", Json.obj [("cpu_usage_percent", Json.str "high")])])
      "2025-01-01 00:00:00" = .error .valueError := by
  rfl

/-- Claim C2 (amended): the renderer never fails on a document whose
present fields are well-typed per §3 — every missing field degrades to its
documented default — but wrong-shaped (mis-typed) field values raise
instead of degrading. -/
theorem render_ok_of_wellShaped (m : Json) (t : String)
    (h : wellShaped m = true) : okE (generate_html m t) = true := by
  obtain ⟨s, hs⟩ := genBody_ok m h
  simp [generate_html, hs, Except.map, okE]

/-- Witness for `render_ok_of_wellShaped`: a sparse, well-typed snapshot
(missing most fields) is well-shaped and renders without raising. -/
theorem render_ok_witness :
    wellShaped
      (Json.obj [("cpu", Json.obj [("cpu_usage_percent", Json.int 95)]),
        ("memory", Json.obj [("memory_total_mb", Json.int 2048)]),
        ("disk", Json.arr [Json.obj [("filesystem", Json.str "/dev/sda1"),
          ("size", Json.str "10Gi"), ("use_percent", Json.int 45)]]),
        ("network", Json.arr [Json.obj [("rx_bytes", Json.int 0),
          ("tx_bytes", Json.int 5)]])]) = true ∧
    okE (generate_html
      (Json.obj [("cpu", Json.obj [("cpu_usage_percent", Json.int 95)]),
        ("memory", Json.obj [("memory_total_mb", Json.int 2048)]),
        ("disk", Json.arr [Json.obj [("filesystem", Json.str "/dev/sda1"),
          ("size", Json.str "10Gi"), ("use_percent", Json.int 45)]]),
        ("network", Json.arr [Json.obj [("rx_bytes", Json.int 0),
          ("tx_bytes", Json.int 5)]])]) "2025-06-01 12:00:00") = true :=
  ⟨by decide, render_ok_of_wellShaped _ "2025-06-01 12:00:00" (by decide)⟩

/-- Claim C6: the disk filter returns exactly the order-preserving
subsequence of entries whose filesystem name (default `""`) starts with
neither `"devfs"` nor `"map"`; on the documented example only
`"/dev/sda1"` survives; and a render whose filtered list is empty carries
the "no disk information" placeholder instead of a table. -/
theorem disk_filter_subsequence :
    (∀ ds : List Json, (∀ d ∈ ds, diskFilterShaped d = true) →
      filterDisks ds = .ok (ds.filter diskKeep)) ∧
    filterDisks [Json.obj [("filesystem", Json.str "devfs")],
      Json.obj [("filesystem", Json.str "map1")],
      Json.obj [("filesystem", Json.str "/dev/sda1")]] =
      .ok [Json.obj [("filesystem", Json.str "/dev/sda1")]] ∧
    (∀ m s, genBody m = .ok s → mainDisksOf m = .ok [] →
      ∃ A B, s = A ++ noDisk ++ B) := by
  refine ⟨filterDisks_eq, rfl, ?_⟩
  intro m s h hempty
  obtain ⟨hdr, sw, md, dkc, gpc, na, ntc, ldc, _, hmd, hdk, _, _, hs⟩ :=
    genBody_decomp m s h
  rw [hmd] at hempty
  injection hempty with hmde
  subst hmde
  have : dkc = noDisk := by
    have h' : (Except.ok noDisk : Except PyErr String) = .ok dkc := hdk
    injection h' with h''
    exact h''.symm
  subst this
  refine ⟨hdr ++ sw ++ dOpen,
    gOpen ++ gpc ++ nOpen ++ ntc ++ lOpen ++ ldc, ?_⟩
  rw [hs]
  simp only [str_append_assoc]

/-- Witness for `disk_filter_subsequence`: the filter lemma applied to the
three-entry example, and the placeholder clause applied to a snapshot whose
only disk entry is filtered out. -/
theorem disk_filter_witness :
    ((∀ d ∈ [Json.obj [("filesystem", Json.str "devfs")],
        Json.obj [("filesystem", Json.str "map1")],
        Json.obj [("filesystem", Json.str "/dev/sda1")]],
        diskFilterShaped d = true) ∧
      filterDisks [Json.obj [("filesystem", Json.str "devfs")],
        Json.obj [("filesystem", Json.str "map1")],
        Json.obj [("filesystem", Json.str "/dev/sda1")]] =
        .ok ([Json.obj [("filesystem", Json.str "devfs")],
          Json.obj [("filesystem", Json.str "map1")],
          Json.obj [("filesystem", Json.str "/dev/sda1")]].filter diskKeep)) ∧
    ∃ A B, getE (genBody
        (Json.obj [("disk",
          Json.arr [Json.obj [("filesystem", Json.str "devfs")]])])) "" =
      A ++ noDisk ++ B := by
  constructor
  · refine ⟨by decide, ?_⟩
    exact disk_filter_subsequence.1 _ (by decide)
  · exact disk_filter_subsequence.2.2 _ _ (okE_eq_ok _ "" (by rfl)) rfl

/-- Claim C7: the network filter returns exactly the order-preserving
subsequence of interfaces with positive received or transmitted bytes; an
all-zero interface is excluded while `rx_bytes=0, tx_bytes=5` is included;
and a render whose filtered list is empty carries the placeholder instead
of a table. -/
theorem net_filter_subsequence :
    (∀ ds : List Json, (∀ d ∈ ds, netFilterShaped d = true) →
      filterNets ds = .ok (ds.filter netKeep)) ∧
    filterNets [Json.obj [("rx_bytes", Json.int 0), ("tx_bytes", Json.int 0)],
      Json.obj [("rx_bytes", Json.int 0), ("tx_bytes", Json.int 5)]] =
      .ok [Json.obj [("rx_bytes", Json.int 0), ("tx_bytes", Json.int 5)]] ∧
    (∀ m s, genBody m = .ok s → activeNetsOf m = .ok [] →
      ∃ A B, s = A ++ noNet ++ B) := by
  refine ⟨filterNets_eq, rfl, ?_⟩
  intro m s h hempty
  obtain ⟨hdr, sw, md, dkc, gpc, na, ntc, ldc, _, _, _, hna, hnk, hs⟩ :=
    genBody_decomp m s h
  rw [hna] at hempty
  injection hempty with hnae
  subst hnae
  have : ntc = noNet := by
    have h' : (Except.ok noNet : Except PyErr String) = .ok ntc := hnk
    injection h' with h''
    exact h''.symm
  subst this
  refine ⟨hdr ++ sw ++ dOpen ++ dkc ++ gOpen ++ gpc ++ nOpen,
    lOpen ++ ldc, ?_⟩
  rw [hs]
  simp only [str_append_assoc]

/-- Witness for `net_filter_subsequence`: the filter lemma applied to the
two-interface example, and the placeholder clause applied to a snapshot
whose only interface has zero traffic. -/
theorem net_filter_witness :
    ((∀ d ∈ [Json.obj [("rx_bytes", Json.int 0), ("tx_bytes", Json.int 0)],
        Json.obj [("rx_bytes", Json.int 0), ("tx_bytes", Json.int 5)]],
        netFilterShaped d = true) ∧
      filterNets [Json.obj [("rx_bytes", Json.int 0),
          ("tx_bytes", Json.int 0)],
        Json.obj [("rx_bytes", Json.int 0), ("tx_bytes", Json.int 5)]] =
        .ok ([Json.obj [("rx_bytes", Json.int 0), ("tx_bytes", Json.int 0)],
          Json.obj [("rx_bytes", Json.int 0),
            ("tx_bytes", Json.int 5)]].filter netKeep)) ∧
    ∃ A B, getE (genBody
        (Json.obj [("network", Json.arr [Json.obj [("rx_bytes", Json.int 0),
          ("tx_bytes", Json.int 0)]])])) "" =
      A ++ noNet ++ B := by
  constructor
  · refine ⟨by decide, ?_⟩
    exact net_filter_subsequence.1 _ (by decide)
  · exact net_filter_subsequence.2.2 _ _ (okE_eq_ok _ "" (by rfl)) rfl

/-- Claim C10: a disk entry without a `filesystem` key is kept by the
filter (its name defaults to `""`, which matches neither excluded prefix),
and its table row shows `"N/A"` in the Filesystem column. -/
theorem missing_filesystem_kept_and_na :
    (∀ (kvs : List (String × Json)) (rest : List Json),
      (kvs.lookup "filesystem").isNone = true →
      filterDisks (Json.obj kvs :: rest) =
        (filterDisks rest).map (Json.obj kvs :: ·)) ∧
    (∀ (kvs : List (String × Json)) (r : String),
      (kvs.lookup "filesystem").isNone = true →
      mkDiskRow (Json.obj kvs) = .ok r →
      ∃ rest, r = dr0 ++ "N/A" ++ rest) := by
  constructor
  · intro kvs rest hnone
    rw [Option.isNone_iff_eq_none] at hnone
    simp only [filterDisks, pyGetD_obj, hnone, Option.getD_none, ok_bind,
      pyStartsWith]
    have h₁ : strStartsWith "" "devfs" = false := by decide
    have h₂ : strStartsWith "" "map" = false := by decide
    simp only [h₁, h₂, ok_bind, Bool.false_eq_true, if_false]
    cases hrest : filterDisks rest <;>
      simp [Except.map, ok_bind, pureE, Bind.bind, Except.bind]
  · intro kvs r hnone hrow
    rw [Option.isNone_iff_eq_none] at hnone
    simp only [mkDiskRow, bind_eq_ok, pure_eq_ok] at hrow
    obtain ⟨u, hu, sz, hsz, us, hus, av, hav, s1, hs1, s2, hs2, s3, hs3,
      fsv, hfsv, c, hc, hr⟩ := hrow
    rw [pyGetD_obj, hnone, Option.getD_none] at hfsv
    injection hfsv with hfsv'
    subst hfsv'
    refine ⟨dr1 ++ s1 ++ dr2 ++ s2 ++ dr3 ++ s3 ++ dr4 ++ c ++ dr5 ++
      pyStr u ++ dr6, ?_⟩
    rw [← hr]
    simp only [str_append_assoc]
    rfl

/-- Witness for `missing_filesystem_kept_and_na`: a single entry without a
`filesystem` key passes the filter and its row starts with the `"N/A"`
cell. -/
theorem missing_filesystem_witness :
    (([("use_percent", Json.int 50),
        ("size", Json.str "10Gi")].lookup "filesystem").isNone = true ∧
      filterDisks [Json.obj [("use_percent", Json.int 50),
        ("size", Json.str "10Gi")]] =
        (filterDisks []).map
          (Json.obj [("use_percent", Json.int 50),
            ("size", Json.str "10Gi")] :: ·)) ∧
    ∃ rest, getE (mkDiskRow (Json.obj [("use_percent", Json.int 50),
        ("size", Json.str "10Gi")])) "" = dr0 ++ "N/A" ++ rest := by
  constructor
  · exact ⟨by decide, missing_filesystem_kept_and_na.1 _ [] (by decide)⟩
  · exact missing_filesystem_kept_and_na.2 _ _ (by decide)
      (okE_eq_ok _ "" (by rfl))
